import Mathlib

/-!
# Livolo touch-switch firmware: the capacitive touch detector

A shallow embedding of `src/livolo1.X/capsensor.c` (the detector step
`capsensor_is_button_pressed` and the seed of `capsensor_init`) and of the
control loop of `src/livolo1.X/main.c` for the PIC16F690 target, where `int`
and `uint16_t` are 16 bits wide and `uint8_t` is 8 bits wide.  Machine
integers are natural numbers reduced modulo `2^16` or `2^8` at the places
where the C code stores or computes them.
-/

namespace Livolo

/-! ## Data model -/

/-- Build-time constants that `capsensor.c` and `main.c` read from `config.h`.
The header is not among the sources, so the constants are parameters of the
embedding; they are non-negative integer literals.  The two threshold
constants are multiplied with a `uint16_t` at lines 125 and 137: the 16-bit
product modelled by `trip_test` and `release_test` is that of an `int`
literal, a value below 32768.  A larger literal has type `long` on the target
and its product is formed in 32 bits, which the embedding does not model;
statements about the threshold arithmetic carry the bound as a hypothesis. -/
structure Config where
  TRIP_THRESHOLD : Nat
  HYST_THRESHOLD : Nat
  READS_TO_TRIP : Nat
  RELEASE_TIMEOUT : Nat
  AVERAGING_RATE : Nat
  TIME_BETWEEN_READS : Nat
  deriving DecidableEq, Repr

/-- Values of the one-bit variable `capsensor_status`
(`#define ST_RELEASED 0`, `#define ST_TRIPPED 1`). -/
inductive Status where
  | ST_RELEASED
  | ST_TRIPPED
  deriving DecidableEq, Repr

/-- Module state of `capsensor.c`: the private counters `avgs` and `cycles`
(both `uint8_t`) and the public variables `capsensor_freq`,
`capsensor_rolling_avg`, `capsensor_frozen_avg` (all `uint16_t`) and
`capsensor_status` (a `bit`). -/
structure Capsensor where
  avgs : Nat
  cycles : Nat
  capsensor_freq : Nat
  capsensor_rolling_avg : Nat
  capsensor_frozen_avg : Nat
  capsensor_status : Status
  deriving DecidableEq, Repr

/-! ## Machine arithmetic of the target -/

/-- Truncation to `uint8_t`. -/
def u8 (n : Nat) : Nat := n % 256

/-- Truncation to `uint16_t` (also the result type of `unsigned int`
arithmetic on the target). -/
def u16 (n : Nat) : Nat := n % 65536

/-- The cast `(int16_t)x` of a 16-bit pattern: patterns below `2^15` keep their
value, the others denote the value minus `2^16`. -/
def int16 (n : Nat) : Int :=
  if n % 65536 < 32768 then ((n % 65536 : Nat) : Int)
  else ((n % 65536 : Nat) : Int) - 65536

/-- Subtraction `a - b` of two `uint16_t` operands, wrapping modulo `2^16`. -/
def sub16 (a b : Nat) : Nat := (a % 65536 + (65536 - b % 65536)) % 65536

/-! ## The detector step -/

/-- Trip test of line 125:
`(int16_t)(rolling_avg - freq) > (int16_t)(TRIP_THRESHOLD * rolling_avg / 256)`,
for `TRIP_THRESHOLD` an `int` literal (below 32768), whose product with the
`uint16_t` is formed in 16-bit unsigned arithmetic. -/
def trip_test (cfg : Config) (rolling_avg freq : Nat) : Bool :=
  decide (int16 (sub16 rolling_avg freq)
    > int16 (u16 (cfg.TRIP_THRESHOLD * rolling_avg) / 256))

/-- Release test of line 137:
`(int16_t)(frozen_avg - freq) < (int16_t)(HYST_THRESHOLD * frozen_avg / 256)`,
for `HYST_THRESHOLD` an `int` literal (below 32768), whose product with the
`uint16_t` is formed in 16-bit unsigned arithmetic. -/
def release_test (cfg : Config) (frozen_avg freq : Nat) : Bool :=
  decide (int16 (sub16 frozen_avg freq)
    < int16 (u16 (cfg.HYST_THRESHOLD * frozen_avg) / 256))

/-- Baseline refresh expression of line 154:
`(rolling_avg * 15 + freq + 8) / 16` in 16-bit unsigned arithmetic. -/
def rolling_update (rolling_avg freq : Nat) : Nat :=
  u16 (rolling_avg * 15 + freq + 8) / 16

/-- The `switch (capsensor_status)` statement of lines 122 to 148; the second
component is the local `do_switch`. -/
def switch_status (cfg : Config) (s : Capsensor) : Capsensor × Bool :=
  match s.capsensor_status with
  | Status.ST_RELEASED =>
    let s1 := { s with capsensor_frozen_avg := s.capsensor_rolling_avg }
    if trip_test cfg s1.capsensor_rolling_avg s1.capsensor_freq then
      let s2 := { s1 with cycles := u8 (s1.cycles + 1) }
      if s2.cycles > cfg.READS_TO_TRIP then
        ({ s2 with cycles := 0, capsensor_status := Status.ST_TRIPPED }, true)
      else
        (s2, false)
    else
      ({ s1 with cycles := 0 }, false)
  | Status.ST_TRIPPED =>
    if release_test cfg s.capsensor_frozen_avg s.capsensor_freq then
      ({ s with cycles := 0, capsensor_status := Status.ST_RELEASED }, false)
    else
      let s1 := { s with cycles := u8 (s.cycles + 1) }
      if s1.cycles > cfg.RELEASE_TIMEOUT then
        ({ s1 with cycles := 0, capsensor_status := Status.ST_RELEASED }, false)
      else
        (s1, false)

/-- Lines 152 to 155: `avgs++`, then the refresh of the rolling average when
the status is tripped or `avgs % AVERAGING_RATE == 0`. -/
def refresh_avg (cfg : Config) (s : Capsensor) : Capsensor :=
  let s1 := { s with avgs := u8 (s.avgs + 1) }
  if s1.capsensor_status = Status.ST_TRIPPED ∨ s1.avgs % cfg.AVERAGING_RATE = 0 then
    { s1 with capsensor_rolling_avg :=
        rolling_update s1.capsensor_rolling_avg s1.capsensor_freq }
  else
    s1

/-- One call of `capsensor_is_button_pressed`: `tmr1` is the value that
`CAPSENSOR_TIME()` reads from the 16-bit timer after the gate window; the
result is the new module state and the returned `do_switch`. -/
def capsensor_is_button_pressed (cfg : Config) (tmr1 : Nat) (s : Capsensor) :
    Capsensor × Bool :=
  let s1 := { s with capsensor_freq := u16 tmr1 }
  let r := switch_status cfg s1
  (refresh_avg cfg r.1, r.2)

/-! ## Runs of the detector over a sequence of samples -/

/-- State after feeding the samples in order, one step per sample. -/
def run (cfg : Config) (s : Capsensor) : List Nat → Capsensor
  | [] => s
  | x :: xs => run cfg (capsensor_is_button_pressed cfg x s).1 xs

/-- The value returned by each step of a run. -/
def events (cfg : Config) (s : Capsensor) : List Nat → List Bool
  | [] => []
  | x :: xs =>
    (capsensor_is_button_pressed cfg x s).2
      :: events cfg (capsensor_is_button_pressed cfg x s).1 xs

/-- The state after each step of a run. -/
def trace (cfg : Config) (s : Capsensor) : List Nat → List Capsensor
  | [] => []
  | x :: xs =>
    (capsensor_is_button_pressed cfg x s).1
      :: trace cfg (capsensor_is_button_pressed cfg x s).1 xs

/-- Every sample of the run passes the trip test against the rolling average
that is current at its step. -/
def all_trip (cfg : Config) (s : Capsensor) : List Nat → Prop
  | [] => True
  | x :: xs =>
    trip_test cfg s.capsensor_rolling_avg (u16 x) = true
      ∧ all_trip cfg (capsensor_is_button_pressed cfg x s).1 xs

/-- No sample of the run passes the trip test against the rolling average
that is current at its step. -/
def none_trip (cfg : Config) (s : Capsensor) : List Nat → Prop
  | [] => True
  | x :: xs =>
    trip_test cfg s.capsensor_rolling_avg (u16 x) = false
      ∧ none_trip cfg (capsensor_is_button_pressed cfg x s).1 xs

/-- No sample of the run passes the release test against the frozen average
that is current at its step. -/
def none_release (cfg : Config) (s : Capsensor) : List Nat → Prop
  | [] => True
  | x :: xs =>
    release_test cfg s.capsensor_frozen_avg (u16 x) = false
      ∧ none_release cfg (capsensor_is_button_pressed cfg x s).1 xs

instance all_trip_decidable (cfg : Config) :
    (s : Capsensor) → (xs : List Nat) → Decidable (all_trip cfg s xs)
  | _, [] => isTrue trivial
  | s, x :: xs =>
    @instDecidableAnd _ _ _
      (all_trip_decidable cfg (capsensor_is_button_pressed cfg x s).1 xs)

instance none_trip_decidable (cfg : Config) :
    (s : Capsensor) → (xs : List Nat) → Decidable (none_trip cfg s xs)
  | _, [] => isTrue trivial
  | s, x :: xs =>
    @instDecidableAnd _ _ _
      (none_trip_decidable cfg (capsensor_is_button_pressed cfg x s).1 xs)

instance none_release_decidable (cfg : Config) :
    (s : Capsensor) → (xs : List Nat) → Decidable (none_release cfg s xs)
  | _, [] => isTrue trivial
  | s, x :: xs =>
    @instDecidableAnd _ _ _
      (none_release_decidable cfg (capsensor_is_button_pressed cfg x s).1 xs)

/-! ## Concrete configurations and states used as test inputs -/

/-- A configuration for concrete runs: trip threshold 26/256 (about 10 %),
hysteresis threshold 6/256 (about 2.3 %, the smallest fraction of 256 that is
at least 2 %), `READS_TO_TRIP = 3`, `RELEASE_TIMEOUT = 10`, a 20000-tick
sampling period, and the given `AVERAGING_RATE`. -/
def sample_config (averaging_rate : Nat) : Config :=
  { TRIP_THRESHOLD := 26, HYST_THRESHOLD := 6, READS_TO_TRIP := 3,
    RELEASE_TIMEOUT := 10, AVERAGING_RATE := averaging_rate,
    TIME_BETWEEN_READS := 20000 }

/-- The module state after start-up: the static initialisers of `capsensor.c`
(`avgs = 0`, `cycles = 0`, `capsensor_frozen_avg = 0`, status released) with
the rolling average seeded to `rolling_avg`. -/
def power_on (rolling_avg : Nat) : Capsensor :=
  { avgs := 0, cycles := 0, capsensor_freq := 0, capsensor_rolling_avg := rolling_avg,
    capsensor_frozen_avg := 0, capsensor_status := Status.ST_RELEASED }

/-- A tripped state with the given counter, rolling average and frozen
average. -/
def tripped_state (cycles rolling_avg frozen_avg : Nat) : Capsensor :=
  { avgs := 0, cycles := cycles, capsensor_freq := 0,
    capsensor_rolling_avg := rolling_avg, capsensor_frozen_avg := frozen_avg,
    capsensor_status := Status.ST_TRIPPED }

/-- A released state with the given counter and rolling average. -/
def released_state (cycles rolling_avg : Nat) : Capsensor :=
  { avgs := 0, cycles := cycles, capsensor_freq := 0,
    capsensor_rolling_avg := rolling_avg, capsensor_frozen_avg := 0,
    capsensor_status := Status.ST_RELEASED }

/-- The sample configuration with `READS_TO_TRIP` raised to 255, the largest
value of the 8-bit counter `cycles`. -/
def large_reads_config : Config :=
  { sample_config 1000 with READS_TO_TRIP := 255 }

/-- The sample configuration with `RELEASE_TIMEOUT` raised to 255, the largest
value of the 8-bit counter `cycles`. -/
def large_timeout_config : Config :=
  { sample_config 1000 with RELEASE_TIMEOUT := 255 }

/-- The sample configuration with the hysteresis threshold at 2 % of the scale
256, which integer division truncates: `256 * 2 / 100 = 5`. -/
def hyst_two_percent_config : Config :=
  { sample_config 4 with HYST_THRESHOLD := 256 * 2 / 100 }

/-! ## Reference value of the baseline filter -/

/-- Reference for the baseline refresh as the specification words it, over the
integers without any wrap: the old value plus `(sample - old) / 16` rounded to
the nearest integer with halves rounded up, that is
`old + floor ((sample - old + 8) / 16)`. -/
def spec_rounded_update (old sample : Int) : Int :=
  old + Int.fdiv (sample - old + 8) 16

/-! ## Initialisation and the thresholds of the two tests -/

/-- Lines 103 to 109 of `capsensor_init`: `tmr1` is the value that
`CAPSENSOR_TIME()` reads from the 16-bit timer after sixteen gate windows; the
rolling average is seeded with `tmr1 / 16`.  The writes to the comparator and
timer registers before it are outside the data model. -/
def capsensor_init (tmr1 : Nat) (s : Capsensor) : Capsensor :=
  { s with capsensor_rolling_avg := u16 tmr1 / 16 }

/-- The right-hand side of the trip test of line 125,
`(int16_t)(TRIP_THRESHOLD * rolling_avg / 256)`: for `TRIP_THRESHOLD` an `int`
literal (below 32768) the product and the quotient are computed in 16-bit
unsigned arithmetic. -/
def trip_threshold (cfg : Config) (rolling_avg : Nat) : Int :=
  int16 (u16 (cfg.TRIP_THRESHOLD * rolling_avg) / 256)

/-- The right-hand side of the release test of line 137,
`(int16_t)(HYST_THRESHOLD * frozen_avg / 256)`: for `HYST_THRESHOLD` an `int`
literal (below 32768) the product and the quotient are computed in 16-bit
unsigned arithmetic. -/
def release_threshold (cfg : Config) (frozen_avg : Nat) : Int :=
  int16 (u16 (cfg.HYST_THRESHOLD * frozen_avg) / 256)

/-! ## The control loop of `main.c` -/

/-- Values of a power reading (`POWER_OK`, `POWER_OUTAGE` in `main.c`). -/
inductive Power where
  | POWER_OK
  | POWER_OUTAGE
  deriving DecidableEq, Repr

/-- Values of `switch_status`: `main.c` compares it with `SWITCH_ON`; the
other value is the off state. -/
inductive Switch where
  | SWITCH_OFF
  | SWITCH_ON
  deriving DecidableEq, Repr

/-- The actuator functions that `main.c` calls, used to record the calls made
by a control cycle. -/
inductive ActuatorCall where
  | switch_off
  | switch_toggle
  deriving DecidableEq, Repr

/-- State that the loop of `main` works on: its local deadline `t0`
(`uint16_t`), the detector state, and the globals `switch_status` and
`power_status` of the switch and power modules. -/
structure MainState where
  t0 : Nat
  sensor : Capsensor
  switch_status : Switch
  power_status : Power
  deriving DecidableEq, Repr

/-- What one control cycle reads from outside: the value returned by
`power_read()` at line 104, the value that `power_status` holds when line 117
reads it (`power.c` is not among the sources, so the link between the two is
left open), the value of `TMR1` at line 113, and the value that the detector
step reads from `TMR1` after its gate window. -/
structure CycleInput where
  power_reading : Power
  power_status : Power
  tmr1 : Nat
  sample : Nat
  deriving DecidableEq, Repr

/-- Modelled from the spec: `switch_off` of `switch.c`, which is not among the
sources.  The switch actuator exposes `off()`, actuation is immediate and
idempotent, and the readable status is off afterwards. -/
def switch_off (m : MainState) : MainState :=
  { m with switch_status := Switch.SWITCH_OFF }

/-- Modelled from the spec: `switch_toggle` of `switch.c`, which is not among
the sources.  The switch actuator exposes `toggle()`, which inverts the
readable status. -/
def switch_toggle (m : MainState) : MainState :=
  { m with switch_status :=
      match m.switch_status with
      | Switch.SWITCH_ON => Switch.SWITCH_OFF
      | Switch.SWITCH_OFF => Switch.SWITCH_ON }

/-- Lines 104 to 111 of `main`: the power-outage override, given the value
returned by `power_read()`.  The second component lists the actuator calls. -/
def main_power_override (reading : Power) (m : MainState) :
    MainState × List ActuatorCall :=
  if reading = Power.POWER_OUTAGE then
    if m.switch_status = Switch.SWITCH_ON then
      (switch_off m, [ActuatorCall.switch_off])
    else
      (m, [])
  else
    (m, [])

/-- The deadline test of line 113, `TMR1 - t0 > TIME_BETWEEN_READS`, with the
difference computed in 16-bit unsigned arithmetic. -/
def deadline_reached (cfg : Config) (tmr1 t0 : Nat) : Bool :=
  decide (sub16 tmr1 t0 > cfg.TIME_BETWEEN_READS)

/-- Lines 113 to 119 of `main`: when the deadline is reached, advance `t0`,
run the detector step, and call `switch_toggle` when the step returns the
event and `power_status` is `POWER_OK`.  The step is the left operand of `&&`
and so runs whatever the power status is. -/
def main_sampling (cfg : Config) (tmr1 sample : Nat) (m : MainState) :
    MainState × List ActuatorCall :=
  if deadline_reached cfg tmr1 m.t0 then
    let m1 := { m with t0 := u16 (m.t0 + cfg.TIME_BETWEEN_READS) }
    let r := capsensor_is_button_pressed cfg sample m1.sensor
    let m2 := { m1 with sensor := r.1 }
    if r.2 = true ∧ m2.power_status = Power.POWER_OK then
      (switch_toggle m2, [ActuatorCall.switch_toggle])
    else
      (m2, [])
  else
    (m, [])

/-- One pass through lines 104 to 119 of the loop of `main`: `power_read()`,
the override, then the sampling block.  The command block of lines 94 to 102
is compiled only under `ACCEPT_CMDS_VIA_UART` and precedes this cycle. -/
def main_loop_cycle (cfg : Config) (inp : CycleInput) (m : MainState) :
    MainState × List ActuatorCall :=
  let m1 := { m with power_status := inp.power_status }
  let r1 := main_power_override inp.power_reading m1
  let r2 := main_sampling cfg inp.tmr1 inp.sample r1.1
  (r2.1, r1.2 ++ r2.2)

/-- A state of the loop built from a detector state, for concrete cycles. -/
def main_state (t0 : Nat) (sensor : Capsensor) (sw : Switch) (pw : Power) : MainState :=
  { t0 := t0, sensor := sensor, switch_status := sw, power_status := pw }

/-! ## Step lemmas -/

theorem refresh_avg_status (cfg : Config) (s : Capsensor) :
    (refresh_avg cfg s).capsensor_status = s.capsensor_status := by
  simp only [refresh_avg]; split <;> rfl

theorem refresh_avg_cycles (cfg : Config) (s : Capsensor) :
    (refresh_avg cfg s).cycles = s.cycles := by
  simp only [refresh_avg]; split <;> rfl

theorem refresh_avg_frozen (cfg : Config) (s : Capsensor) :
    (refresh_avg cfg s).capsensor_frozen_avg = s.capsensor_frozen_avg := by
  simp only [refresh_avg]; split <;> rfl

theorem refresh_avg_avgs (cfg : Config) (s : Capsensor) :
    (refresh_avg cfg s).avgs = u8 (s.avgs + 1) := by
  simp only [refresh_avg]; split <;> rfl

theorem switch_status_rolling (cfg : Config) (s : Capsensor) :
    (switch_status cfg s).1.capsensor_rolling_avg = s.capsensor_rolling_avg := by
  cases hs : s.capsensor_status <;>
    simp only [switch_status, hs] <;> split <;> (try split) <;> rfl

theorem switch_status_avgs (cfg : Config) (s : Capsensor) :
    (switch_status cfg s).1.avgs = s.avgs := by
  cases hs : s.capsensor_status <;>
    simp only [switch_status, hs] <;> split <;> (try split) <;> rfl

theorem switch_status_freq (cfg : Config) (s : Capsensor) :
    (switch_status cfg s).1.capsensor_freq = s.capsensor_freq := by
  cases hs : s.capsensor_status <;>
    simp only [switch_status, hs] <;> split <;> (try split) <;> rfl

/-- The status after a step is decided by the `switch` statement alone. -/
theorem step_status (cfg : Config) (x : Nat) (s : Capsensor) :
    (capsensor_is_button_pressed cfg x s).1.capsensor_status
      = (switch_status cfg { s with capsensor_freq := u16 x }).1.capsensor_status := by
  simp [capsensor_is_button_pressed, refresh_avg_status]

/-- The rolling average after a step, in terms of the state before it. -/
theorem step_rolling (cfg : Config) (x : Nat) (s : Capsensor) :
    (capsensor_is_button_pressed cfg x s).1.capsensor_rolling_avg
      = if (capsensor_is_button_pressed cfg x s).1.capsensor_status = Status.ST_TRIPPED
            ∨ u8 (s.avgs + 1) % cfg.AVERAGING_RATE = 0
        then rolling_update s.capsensor_rolling_avg (u16 x)
        else s.capsensor_rolling_avg := by
  rw [step_status]
  simp only [capsensor_is_button_pressed, refresh_avg, switch_status_rolling,
    switch_status_avgs, switch_status_freq]
  split <;> rfl

/-- The cycle counter `avgs` after a step. -/
theorem step_avgs (cfg : Config) (x : Nat) (s : Capsensor) :
    (capsensor_is_button_pressed cfg x s).1.avgs = u8 (s.avgs + 1) := by
  simp [capsensor_is_button_pressed, refresh_avg_avgs, switch_status_avgs]

/-- Released, trip test fails: the counter is cleared. -/
theorem step_released_idle (cfg : Config) (x : Nat) (s : Capsensor)
    (hs : s.capsensor_status = Status.ST_RELEASED)
    (ht : trip_test cfg s.capsensor_rolling_avg (u16 x) = false) :
    (capsensor_is_button_pressed cfg x s).2 = false
      ∧ (capsensor_is_button_pressed cfg x s).1.capsensor_status = Status.ST_RELEASED
      ∧ (capsensor_is_button_pressed cfg x s).1.cycles = 0
      ∧ (capsensor_is_button_pressed cfg x s).1.capsensor_frozen_avg
          = s.capsensor_rolling_avg := by
  simp [capsensor_is_button_pressed, switch_status, refresh_avg_status, refresh_avg_cycles,
    refresh_avg_frozen, hs, ht]

/-- Released, trip test passes, counter not yet above `READS_TO_TRIP`. -/
theorem step_released_count (cfg : Config) (x : Nat) (s : Capsensor)
    (hs : s.capsensor_status = Status.ST_RELEASED)
    (ht : trip_test cfg s.capsensor_rolling_avg (u16 x) = true)
    (hc : u8 (s.cycles + 1) ≤ cfg.READS_TO_TRIP) :
    (capsensor_is_button_pressed cfg x s).2 = false
      ∧ (capsensor_is_button_pressed cfg x s).1.capsensor_status = Status.ST_RELEASED
      ∧ (capsensor_is_button_pressed cfg x s).1.cycles = u8 (s.cycles + 1)
      ∧ (capsensor_is_button_pressed cfg x s).1.capsensor_frozen_avg
          = s.capsensor_rolling_avg := by
  have hc2 : ¬ (u8 (s.cycles + 1) > cfg.READS_TO_TRIP) := Nat.not_lt.mpr hc
  simp [capsensor_is_button_pressed, switch_status, refresh_avg_status, refresh_avg_cycles,
    refresh_avg_frozen, hs, ht, hc2]

/-- Released, trip test passes, counter above `READS_TO_TRIP`: the trip. -/
theorem step_released_trip (cfg : Config) (x : Nat) (s : Capsensor)
    (hs : s.capsensor_status = Status.ST_RELEASED)
    (ht : trip_test cfg s.capsensor_rolling_avg (u16 x) = true)
    (hc : u8 (s.cycles + 1) > cfg.READS_TO_TRIP) :
    (capsensor_is_button_pressed cfg x s).2 = true
      ∧ (capsensor_is_button_pressed cfg x s).1.capsensor_status = Status.ST_TRIPPED
      ∧ (capsensor_is_button_pressed cfg x s).1.cycles = 0
      ∧ (capsensor_is_button_pressed cfg x s).1.capsensor_frozen_avg
          = s.capsensor_rolling_avg := by
  simp [capsensor_is_button_pressed, switch_status, refresh_avg_status, refresh_avg_cycles,
    refresh_avg_frozen, hs, ht, hc]

/-- Tripped, release test passes: release by hysteresis. -/
theorem step_tripped_release (cfg : Config) (x : Nat) (s : Capsensor)
    (hs : s.capsensor_status = Status.ST_TRIPPED)
    (ht : release_test cfg s.capsensor_frozen_avg (u16 x) = true) :
    (capsensor_is_button_pressed cfg x s).2 = false
      ∧ (capsensor_is_button_pressed cfg x s).1.capsensor_status = Status.ST_RELEASED
      ∧ (capsensor_is_button_pressed cfg x s).1.cycles = 0
      ∧ (capsensor_is_button_pressed cfg x s).1.capsensor_frozen_avg
          = s.capsensor_frozen_avg := by
  simp [capsensor_is_button_pressed, switch_status, refresh_avg_status, refresh_avg_cycles,
    refresh_avg_frozen, hs, ht]

/-- Tripped, release test fails, counter not yet above `RELEASE_TIMEOUT`. -/
theorem step_tripped_hold (cfg : Config) (x : Nat) (s : Capsensor)
    (hs : s.capsensor_status = Status.ST_TRIPPED)
    (ht : release_test cfg s.capsensor_frozen_avg (u16 x) = false)
    (hc : u8 (s.cycles + 1) ≤ cfg.RELEASE_TIMEOUT) :
    (capsensor_is_button_pressed cfg x s).2 = false
      ∧ (capsensor_is_button_pressed cfg x s).1.capsensor_status = Status.ST_TRIPPED
      ∧ (capsensor_is_button_pressed cfg x s).1.cycles = u8 (s.cycles + 1)
      ∧ (capsensor_is_button_pressed cfg x s).1.capsensor_frozen_avg
          = s.capsensor_frozen_avg := by
  have hc2 : ¬ (u8 (s.cycles + 1) > cfg.RELEASE_TIMEOUT) := Nat.not_lt.mpr hc
  simp [capsensor_is_button_pressed, switch_status, refresh_avg_status, refresh_avg_cycles,
    refresh_avg_frozen, hs, ht, hc2]

/-- Tripped, release test fails, counter above `RELEASE_TIMEOUT`: the timeout. -/
theorem step_tripped_timeout (cfg : Config) (x : Nat) (s : Capsensor)
    (hs : s.capsensor_status = Status.ST_TRIPPED)
    (ht : release_test cfg s.capsensor_frozen_avg (u16 x) = false)
    (hc : u8 (s.cycles + 1) > cfg.RELEASE_TIMEOUT) :
    (capsensor_is_button_pressed cfg x s).2 = false
      ∧ (capsensor_is_button_pressed cfg x s).1.capsensor_status = Status.ST_RELEASED
      ∧ (capsensor_is_button_pressed cfg x s).1.cycles = 0
      ∧ (capsensor_is_button_pressed cfg x s).1.capsensor_frozen_avg
          = s.capsensor_frozen_avg := by
  simp [capsensor_is_button_pressed, switch_status, refresh_avg_status, refresh_avg_cycles,
    refresh_avg_frozen, hs, ht, hc]

/-! ## Further step and run lemmas -/

/-- The frozen average after a step: a released step copies the rolling
average into it, a tripped step leaves it alone. -/
theorem step_frozen (cfg : Config) (x : Nat) (s : Capsensor) :
    (capsensor_is_button_pressed cfg x s).1.capsensor_frozen_avg
      = if s.capsensor_status = Status.ST_RELEASED then s.capsensor_rolling_avg
        else s.capsensor_frozen_avg := by
  cases hs : s.capsensor_status <;>
    simp only [capsensor_is_button_pressed, switch_status, refresh_avg_frozen, hs] <;>
    split <;> (try split) <;> simp_all

/-- Released, trip test passes, counter not above `READS_TO_TRIP`, and the
incremented `avgs` off the averaging boundary: the whole state after the step. -/
theorem step_released_count_eq (cfg : Config) (x : Nat) (s : Capsensor)
    (hs : s.capsensor_status = Status.ST_RELEASED)
    (ht : trip_test cfg s.capsensor_rolling_avg (u16 x) = true)
    (hc : u8 (s.cycles + 1) ≤ cfg.READS_TO_TRIP)
    (hm : u8 (s.avgs + 1) % cfg.AVERAGING_RATE ≠ 0) :
    capsensor_is_button_pressed cfg x s
      = ({ avgs := u8 (s.avgs + 1), cycles := u8 (s.cycles + 1), capsensor_freq := u16 x,
           capsensor_rolling_avg := s.capsensor_rolling_avg,
           capsensor_frozen_avg := s.capsensor_rolling_avg,
           capsensor_status := Status.ST_RELEASED }, false) := by
  have hc2 : ¬ (u8 (s.cycles + 1) > cfg.READS_TO_TRIP) := Nat.not_lt.mpr hc
  simp [capsensor_is_button_pressed, switch_status, refresh_avg, hs, ht, hc2, hm]

/-- Countdown to the trip: from a released state whose counter is `n` short of
`READS_TO_TRIP`, a run of `n + 1` samples that all pass the trip test returns
no event on its first `n` steps and trips on the last one. -/
theorem trip_countdown (cfg : Config) (hR : cfg.READS_TO_TRIP < 255) :
    ∀ (n : Nat) (s : Capsensor) (samples : List Nat),
      s.capsensor_status = Status.ST_RELEASED →
      s.cycles + n = cfg.READS_TO_TRIP →
      samples.length = n + 1 →
      all_trip cfg s samples →
      events cfg s samples = List.replicate n false ++ [true]
        ∧ (trace cfg s samples).map (fun t => t.capsensor_status)
            = List.replicate n Status.ST_RELEASED ++ [Status.ST_TRIPPED] := by
  intro n
  induction n with
  | zero =>
    intro s samples hs hc hlen hall
    match samples, hlen, hall with
    | [x], _, hall =>
      have hgt : u8 (s.cycles + 1) > cfg.READS_TO_TRIP := by
        simp only [u8]; omega
      obtain ⟨he, hst, _, _⟩ := step_released_trip cfg x s hs hall.1 hgt
      simp [events, trace, he, hst]
  | succ n ih =>
    intro s samples hs hc hlen hall
    match samples, hlen, hall with
    | x :: xs, hlen, hall =>
      have hle : u8 (s.cycles + 1) ≤ cfg.READS_TO_TRIP := by
        simp only [u8]; omega
      have hu : u8 (s.cycles + 1) = s.cycles + 1 := by
        simp only [u8]; omega
      obtain ⟨he, hst, hcy, _⟩ := step_released_count cfg x s hs hall.1 hle
      have hlen2 : xs.length = n + 1 := by simpa using hlen
      obtain ⟨ih1, ih2⟩ := ih (capsensor_is_button_pressed cfg x s).1 xs hst
        (by rw [hcy, hu]; omega) hlen2 hall.2
      simp [events, trace, he, hst, ih1, ih2, List.replicate_succ]

/-- Countdown to the timeout: from a tripped state whose counter is `n` short
of `RELEASE_TIMEOUT`, a run of `n + 1` samples that all fail the release test
stays tripped for `n` steps and is released by the last one, without event. -/
theorem timeout_countdown (cfg : Config) (hT : cfg.RELEASE_TIMEOUT < 255) :
    ∀ (n : Nat) (s : Capsensor) (samples : List Nat),
      s.capsensor_status = Status.ST_TRIPPED →
      s.cycles + n = cfg.RELEASE_TIMEOUT →
      samples.length = n + 1 →
      none_release cfg s samples →
      events cfg s samples = List.replicate (n + 1) false
        ∧ (trace cfg s samples).map (fun t => t.capsensor_status)
            = List.replicate n Status.ST_TRIPPED ++ [Status.ST_RELEASED] := by
  intro n
  induction n with
  | zero =>
    intro s samples hs hc hlen hall
    match samples, hlen, hall with
    | [x], _, hall =>
      have hgt : u8 (s.cycles + 1) > cfg.RELEASE_TIMEOUT := by
        simp only [u8]; omega
      obtain ⟨he, hst, _, _⟩ := step_tripped_timeout cfg x s hs hall.1 hgt
      simp [events, trace, he, hst]
  | succ n ih =>
    intro s samples hs hc hlen hall
    match samples, hlen, hall with
    | x :: xs, hlen, hall =>
      have hle : u8 (s.cycles + 1) ≤ cfg.RELEASE_TIMEOUT := by
        simp only [u8]; omega
      have hu : u8 (s.cycles + 1) = s.cycles + 1 := by
        simp only [u8]; omega
      obtain ⟨he, hst, hcy, _⟩ := step_tripped_hold cfg x s hs hall.1 hle
      have hlen2 : xs.length = n + 1 := by simpa using hlen
      obtain ⟨ih1, ih2⟩ := ih (capsensor_is_button_pressed cfg x s).1 xs hst
        (by rw [hcy, hu]; omega) hlen2 hall.2
      simp [events, trace, he, hst, ih1, ih2, List.replicate_succ]

/-- From a tripped state whose counter is at most `RELEASE_TIMEOUT`, any
sufficiently long run reaches the released status within
`RELEASE_TIMEOUT + 1 - cycles` steps. -/
theorem release_within (cfg : Config) (hT : cfg.RELEASE_TIMEOUT < 255) :
    ∀ (n : Nat) (s : Capsensor) (samples : List Nat),
      s.capsensor_status = Status.ST_TRIPPED →
      s.cycles + n = cfg.RELEASE_TIMEOUT →
      n + 1 ≤ samples.length →
      ∃ t ∈ (trace cfg s samples).take (n + 1),
        t.capsensor_status = Status.ST_RELEASED := by
  intro n
  induction n with
  | zero =>
    intro s samples hs hc hlen
    match samples, hlen with
    | x :: xs, _ =>
      refine ⟨(capsensor_is_button_pressed cfg x s).1, by simp [trace], ?_⟩
      cases hr : release_test cfg s.capsensor_frozen_avg (u16 x) with
      | true => exact (step_tripped_release cfg x s hs hr).2.1
      | false =>
        have hgt : u8 (s.cycles + 1) > cfg.RELEASE_TIMEOUT := by
          simp only [u8]; omega
        exact (step_tripped_timeout cfg x s hs hr hgt).2.1
  | succ n ih =>
    intro s samples hs hc hlen
    match samples, hlen with
    | x :: xs, hlen =>
      cases hr : release_test cfg s.capsensor_frozen_avg (u16 x) with
      | true =>
        exact ⟨(capsensor_is_button_pressed cfg x s).1, by simp [trace],
          (step_tripped_release cfg x s hs hr).2.1⟩
      | false =>
        have hle : u8 (s.cycles + 1) ≤ cfg.RELEASE_TIMEOUT := by
          simp only [u8]; omega
        have hu : u8 (s.cycles + 1) = s.cycles + 1 := by
          simp only [u8]; omega
        obtain ⟨_, hst, hcy, _⟩ := step_tripped_hold cfg x s hs hr hle
        have hlen2 : n + 1 ≤ xs.length := by simpa using hlen
        obtain ⟨t, ht, hrel⟩ := ih (capsensor_is_button_pressed cfg x s).1 xs hst
          (by rw [hcy, hu]; omega) hlen2
        refine ⟨t, ?_, hrel⟩
        simp only [trace, List.take_succ_cons, List.mem_cons]
        exact Or.inr ht

/-- With `READS_TO_TRIP` at 255 or more the 8-bit counter can never exceed
it, so a released detector never trips. -/
theorem step_released_large_reads (cfg : Config) (x : Nat) (s : Capsensor)
    (hR : 255 ≤ cfg.READS_TO_TRIP)
    (hs : s.capsensor_status = Status.ST_RELEASED) :
    (capsensor_is_button_pressed cfg x s).2 = false
      ∧ (capsensor_is_button_pressed cfg x s).1.capsensor_status = Status.ST_RELEASED := by
  cases ht : trip_test cfg s.capsensor_rolling_avg (u16 x) with
  | false =>
    obtain ⟨he, hst, _, _⟩ := step_released_idle cfg x s hs ht
    exact ⟨he, hst⟩
  | true =>
    have hle : u8 (s.cycles + 1) ≤ cfg.READS_TO_TRIP := by
      simp only [u8]; omega
    obtain ⟨he, hst, _, _⟩ := step_released_count cfg x s hs ht hle
    exact ⟨he, hst⟩

/-- With `READS_TO_TRIP` at 255 or more and no baseline refresh on the way,
a constant sample that passes the trip test keeps passing it and the detector
stays released without an event. -/
theorem count_forever (cfg : Config) (hR : 255 ≤ cfg.READS_TO_TRIP)
    (hA : 256 ≤ cfg.AVERAGING_RATE) (x : Nat) :
    ∀ (n : Nat) (s : Capsensor),
      s.capsensor_status = Status.ST_RELEASED →
      trip_test cfg s.capsensor_rolling_avg (u16 x) = true →
      s.avgs + n ≤ 256 →
      all_trip cfg s (List.replicate n x)
        ∧ events cfg s (List.replicate n x) = List.replicate n false
        ∧ (trace cfg s (List.replicate n x)).map (fun t => t.capsensor_status)
            = List.replicate n Status.ST_RELEASED := by
  intro n
  induction n with
  | zero => intro s _ _ _; simp [all_trip, events, trace]
  | succ n ih =>
    intro s hs ht ha
    obtain ⟨he, hst⟩ := step_released_large_reads cfg x s hR hs
    cases n with
    | zero => simp [all_trip, events, trace, he, hst, ht, List.replicate_succ]
    | succ m =>
      have hu : u8 (s.avgs + 1) = s.avgs + 1 := by
        simp only [u8]; omega
      have hm : u8 (s.avgs + 1) % cfg.AVERAGING_RATE ≠ 0 := by
        rw [hu, Nat.mod_eq_of_lt (by omega)]; omega
      have hroll : (capsensor_is_button_pressed cfg x s).1.capsensor_rolling_avg
          = s.capsensor_rolling_avg := by
        rw [step_rolling]; simp [hst, hm]
      obtain ⟨i1, i2, i3⟩ := ih (capsensor_is_button_pressed cfg x s).1 hst
        (by rw [hroll]; exact ht) (by rw [step_avgs, hu]; omega)
      refine ⟨?_, ?_, ?_⟩
      · rw [List.replicate_succ]; exact ⟨ht, i1⟩
      · rw [List.replicate_succ, events, i2, he]; rfl
      · rw [List.replicate_succ, trace, List.map_cons, i3, hst]; rfl

/-- With `RELEASE_TIMEOUT` at 255 or more the 8-bit counter can never exceed
it, so a tripped detector is never released by the timeout. -/
theorem step_tripped_large_timeout (cfg : Config) (x : Nat) (s : Capsensor)
    (hT : 255 ≤ cfg.RELEASE_TIMEOUT)
    (hs : s.capsensor_status = Status.ST_TRIPPED)
    (hr : release_test cfg s.capsensor_frozen_avg (u16 x) = false) :
    (capsensor_is_button_pressed cfg x s).2 = false
      ∧ (capsensor_is_button_pressed cfg x s).1.capsensor_status = Status.ST_TRIPPED
      ∧ (capsensor_is_button_pressed cfg x s).1.capsensor_frozen_avg
          = s.capsensor_frozen_avg := by
  have hle : u8 (s.cycles + 1) ≤ cfg.RELEASE_TIMEOUT := by
    simp only [u8]; omega
  obtain ⟨he, hst, _, hf⟩ := step_tripped_hold cfg x s hs hr hle
  exact ⟨he, hst, hf⟩

/-- With `RELEASE_TIMEOUT` at 255 or more a constant sample that fails the
release test keeps failing it, and the detector stays tripped without event. -/
theorem hold_forever (cfg : Config) (hT : 255 ≤ cfg.RELEASE_TIMEOUT) (x : Nat) :
    ∀ (n : Nat) (s : Capsensor),
      s.capsensor_status = Status.ST_TRIPPED →
      release_test cfg s.capsensor_frozen_avg (u16 x) = false →
      none_release cfg s (List.replicate n x)
        ∧ events cfg s (List.replicate n x) = List.replicate n false
        ∧ (trace cfg s (List.replicate n x)).map (fun t => t.capsensor_status)
            = List.replicate n Status.ST_TRIPPED := by
  intro n
  induction n with
  | zero => intro s _ _; simp [none_release, events, trace]
  | succ n ih =>
    intro s hs hr
    obtain ⟨he, hst, hf⟩ := step_tripped_large_timeout cfg x s hT hs hr
    obtain ⟨i1, i2, i3⟩ := ih (capsensor_is_button_pressed cfg x s).1 hst
      (by rw [hf]; exact hr)
    refine ⟨?_, ?_, ?_⟩
    · rw [List.replicate_succ]; exact ⟨hr, i1⟩
    · rw [List.replicate_succ, events, i2, he]; rfl
    · rw [List.replicate_succ, trace, List.map_cons, i3, hst]; rfl

/-- The refresh expression does not wrap when the rolling average and the
sample are both below 4096, the range in which sixteen gate windows fit the
16-bit timer that `capsensor_init` reads. -/
theorem rolling_update_no_wrap_below_4096 (rolling_avg freq : Nat)
    (hr : rolling_avg < 4096) (hf : freq < 4096) :
    rolling_update rolling_avg freq = (rolling_avg * 15 + freq + 8) / 16 := by
  simp only [rolling_update, u16]
  rw [Nat.mod_eq_of_lt (by omega)]

/-! ## The event and the status transition -/

/-- C1: for every detector state and every sample, a step returns the event
exactly when the status is released before the step and tripped after it;
in particular a step that starts in the tripped status, whether it stays
tripped, releases by hysteresis or releases by timeout, returns no event. -/
theorem event_iff_released_to_tripped (cfg : Config) (x : Nat) (s : Capsensor) :
    ((capsensor_is_button_pressed cfg x s).2 = true
        ↔ s.capsensor_status = Status.ST_RELEASED
          ∧ (capsensor_is_button_pressed cfg x s).1.capsensor_status = Status.ST_TRIPPED)
      ∧ (s.capsensor_status = Status.ST_TRIPPED →
          (capsensor_is_button_pressed cfg x s).2 = false) := by
  rw [step_status]
  cases hs : s.capsensor_status <;>
    simp only [capsensor_is_button_pressed, switch_status, hs] <;>
    split <;> (try split) <;> simp

/-- C1 at concrete inputs: the fourth confirming sample returns the event, and
a tripped detector returns none when it stays tripped, when it is released by
hysteresis and when it is released by the timeout. -/
theorem event_iff_released_to_tripped_witness :
    (capsensor_is_button_pressed (sample_config 4) 700 (released_state 3 1000)).2 = true
      ∧ (tripped_state 2 950 1000).capsensor_status = Status.ST_TRIPPED
      ∧ (capsensor_is_button_pressed (sample_config 4) 700 (tripped_state 2 950 1000)).2
          = false
      ∧ (capsensor_is_button_pressed (sample_config 4) 990 (tripped_state 2 950 1000)).2
          = false
      ∧ (capsensor_is_button_pressed (sample_config 4) 700 (tripped_state 10 950 1000)).2
          = false :=
  ⟨(event_iff_released_to_tripped (sample_config 4) 700 (released_state 3 1000)).1.mpr
      ⟨rfl, by decide⟩,
    rfl,
    (event_iff_released_to_tripped (sample_config 4) 700 (tripped_state 2 950 1000)).2 rfl,
    (event_iff_released_to_tripped (sample_config 4) 990 (tripped_state 2 950 1000)).2 rfl,
    (event_iff_released_to_tripped (sample_config 4) 700 (tripped_state 10 950 1000)).2 rfl⟩

/-! ## Trip after `READS_TO_TRIP + 1` confirming samples -/

/-- C2 (amended with the bound `READS_TO_TRIP < 255`): from a released state
with the counter at 0, for every run of `READS_TO_TRIP + 1` samples each of
which passes the trip test against the rolling average current at its step,
the first `READS_TO_TRIP` steps leave the status released and return no event
and the last step sets the status to tripped and returns the event, so exactly
one event is returned. -/
theorem trips_after_reads_to_trip (cfg : Config) (s : Capsensor) (samples : List Nat)
    (hR : cfg.READS_TO_TRIP < 255)
    (hs : s.capsensor_status = Status.ST_RELEASED)
    (hc : s.cycles = 0)
    (hlen : samples.length = cfg.READS_TO_TRIP + 1)
    (hall : all_trip cfg s samples) :
    events cfg s samples = List.replicate cfg.READS_TO_TRIP false ++ [true]
      ∧ (trace cfg s samples).map (fun t => t.capsensor_status)
          = List.replicate cfg.READS_TO_TRIP Status.ST_RELEASED ++ [Status.ST_TRIPPED]
      ∧ (events cfg s samples).count true = 1 := by
  obtain ⟨h1, h2⟩ := trip_countdown cfg hR cfg.READS_TO_TRIP s samples hs
    (by rw [hc]; omega) hlen hall
  refine ⟨h1, h2, ?_⟩
  rw [h1]
  simp [List.count_replicate]

/-- C2 at a concrete input: `READS_TO_TRIP = 3`, a baseline of 1000 and four
samples near 700. -/
theorem trips_after_reads_to_trip_witness :
    (sample_config 4).READS_TO_TRIP < 255
      ∧ (power_on 1000).capsensor_status = Status.ST_RELEASED
      ∧ (power_on 1000).cycles = 0
      ∧ all_trip (sample_config 4) (power_on 1000) [700, 690, 710, 700]
      ∧ events (sample_config 4) (power_on 1000) [700, 690, 710, 700]
          = [false, false, false, true]
      ∧ (trace (sample_config 4) (power_on 1000) [700, 690, 710, 700]).map
            (fun t => t.capsensor_status)
          = [Status.ST_RELEASED, Status.ST_RELEASED, Status.ST_RELEASED, Status.ST_TRIPPED] :=
  ⟨by decide, rfl, rfl, by decide,
    (trips_after_reads_to_trip (sample_config 4) (power_on 1000) [700, 690, 710, 700]
      (by decide) rfl rfl rfl (by decide)).1,
    (trips_after_reads_to_trip (sample_config 4) (power_on 1000) [700, 690, 710, 700]
      (by decide) rfl rfl rfl (by decide)).2.1⟩

/-- C2 fails without the bound: with `READS_TO_TRIP = 255` the counter wraps
from 255 to 0 and never exceeds the constant, so 256 consecutive samples that
all pass the trip test leave the detector released and return no event. -/
theorem no_trip_when_reads_to_trip_is_255 :
    (power_on 1000).capsensor_status = Status.ST_RELEASED
      ∧ (power_on 1000).cycles = 0
      ∧ (List.replicate 256 700).length = large_reads_config.READS_TO_TRIP + 1
      ∧ all_trip large_reads_config (power_on 1000) (List.replicate 256 700)
      ∧ events large_reads_config (power_on 1000) (List.replicate 256 700)
          = List.replicate 256 false
      ∧ (trace large_reads_config (power_on 1000) (List.replicate 256 700)).map
            (fun t => t.capsensor_status)
          = List.replicate 256 Status.ST_RELEASED :=
  ⟨rfl, rfl, List.length_replicate 256 700,
    count_forever large_reads_config (by decide) (by decide) 700 256 (power_on 1000)
      rfl (by decide) (by decide)⟩

/-! ## No trip while the trip test fails -/

/-- C3: from a released state, for every finite run of samples none of which
passes the trip test against the rolling average current at its step, the
status is released and the counter is 0 after every step, and no step returns
an event. -/
theorem released_while_no_trip (cfg : Config) (s : Capsensor) (samples : List Nat)
    (hs : s.capsensor_status = Status.ST_RELEASED)
    (hn : none_trip cfg s samples) :
    (∀ t ∈ trace cfg s samples, t.capsensor_status = Status.ST_RELEASED ∧ t.cycles = 0)
      ∧ (∀ e ∈ events cfg s samples, e = false) := by
  induction samples generalizing s with
  | nil => simp [trace, events]
  | cons x xs ih =>
    obtain ⟨hx, hxs⟩ := hn
    obtain ⟨he, hst, hcy, _⟩ := step_released_idle cfg x s hs hx
    obtain ⟨ih1, ih2⟩ := ih _ hst hxs
    constructor
    · intro t ht
      simp only [trace, List.mem_cons] at ht
      rcases ht with rfl | ht
      · exact ⟨hst, hcy⟩
      · exact ih1 t ht
    · intro e hmem
      simp only [events, List.mem_cons] at hmem
      rcases hmem with rfl | hmem
      · exact he
      · exact ih2 e hmem

/-- C3 at a concrete input: samples around a baseline of 1000, with a refresh
of the baseline on every second step. -/
theorem released_while_no_trip_witness :
    (power_on 1000).capsensor_status = Status.ST_RELEASED
      ∧ none_trip (sample_config 2) (power_on 1000) [1000, 990, 1005, 950, 1010]
      ∧ (∀ t ∈ trace (sample_config 2) (power_on 1000) [1000, 990, 1005, 950, 1010],
          t.capsensor_status = Status.ST_RELEASED ∧ t.cycles = 0)
      ∧ (∀ e ∈ events (sample_config 2) (power_on 1000) [1000, 990, 1005, 950, 1010],
          e = false) :=
  ⟨rfl, by decide,
    released_while_no_trip (sample_config 2) (power_on 1000) [1000, 990, 1005, 950, 1010]
      rfl (by decide)⟩

/-! ## Release by hysteresis -/

/-- C4 (amended in its example only): for every tripped state, whatever its
counter, and every sample that passes the release test (the signed 16-bit
difference between the frozen average and the sample is below the hysteresis
margin), one step sets the status to released, clears the counter and returns
no event.  The test is strict, so the example needs a sample strictly inside
the margin. -/
theorem hysteresis_release (cfg : Config) (x : Nat) (s : Capsensor)
    (hs : s.capsensor_status = Status.ST_TRIPPED)
    (hr : release_test cfg s.capsensor_frozen_avg (u16 x) = true) :
    (capsensor_is_button_pressed cfg x s).1.capsensor_status = Status.ST_RELEASED
      ∧ (capsensor_is_button_pressed cfg x s).1.cycles = 0
      ∧ (capsensor_is_button_pressed cfg x s).2 = false := by
  obtain ⟨he, hst, hcy, _⟩ := step_tripped_release cfg x s hs hr
  exact ⟨hst, hcy, he⟩

/-- C4 at the amended example, counter 7 before the step: with frozen average
1000 and the hysteresis threshold at 2 % (constant 5, margin 19) the sample 982
releases; the sample 980 releases with the constant 6 (margin 23). -/
theorem hysteresis_release_witness :
    (tripped_state 7 950 1000).capsensor_status = Status.ST_TRIPPED
      ∧ release_test hyst_two_percent_config (tripped_state 7 950 1000).capsensor_frozen_avg
          (u16 982) = true
      ∧ ((capsensor_is_button_pressed hyst_two_percent_config 982
            (tripped_state 7 950 1000)).1.capsensor_status = Status.ST_RELEASED
        ∧ (capsensor_is_button_pressed hyst_two_percent_config 982
            (tripped_state 7 950 1000)).1.cycles = 0
        ∧ (capsensor_is_button_pressed hyst_two_percent_config 982
            (tripped_state 7 950 1000)).2 = false)
      ∧ release_test (sample_config 4) (tripped_state 7 950 1000).capsensor_frozen_avg
          (u16 980) = true
      ∧ ((capsensor_is_button_pressed (sample_config 4) 980
            (tripped_state 7 950 1000)).1.capsensor_status = Status.ST_RELEASED
        ∧ (capsensor_is_button_pressed (sample_config 4) 980
            (tripped_state 7 950 1000)).1.cycles = 0
        ∧ (capsensor_is_button_pressed (sample_config 4) 980
            (tripped_state 7 950 1000)).2 = false) :=
  ⟨rfl, by decide,
    hysteresis_release hyst_two_percent_config 982 (tripped_state 7 950 1000) rfl
      (by decide),
    by decide,
    hysteresis_release (sample_config 4) 980 (tripped_state 7 950 1000) rfl (by decide)⟩

/-- C4 fails at the example as the claim words it: with frozen average 1000 and
the hysteresis threshold at 2 % the constant is 5 and the margin 19, the
difference of the sample 980 is 20, the strict release test fails (as it does
against the exact margin 20), and the step leaves the detector tripped with the
counter raised from 7 to 8. -/
theorem hysteresis_example_stays_tripped_at_two_percent :
    hyst_two_percent_config.HYST_THRESHOLD = 5
      ∧ (tripped_state 7 950 1000).capsensor_status = Status.ST_TRIPPED
      ∧ release_threshold hyst_two_percent_config
          (tripped_state 7 950 1000).capsensor_frozen_avg = 19
      ∧ int16 (sub16 (tripped_state 7 950 1000).capsensor_frozen_avg (u16 980)) = 20
      ∧ ¬ ((20 : Int) < 2 * 1000 / 100)
      ∧ release_test hyst_two_percent_config (tripped_state 7 950 1000).capsensor_frozen_avg
          (u16 980) = false
      ∧ (capsensor_is_button_pressed hyst_two_percent_config 980
          (tripped_state 7 950 1000)).1.capsensor_status = Status.ST_TRIPPED
      ∧ (capsensor_is_button_pressed hyst_two_percent_config 980
          (tripped_state 7 950 1000)).1.cycles = 8 := by
  decide

/-- With the 2 % threshold truncated to 5/256 the margin for a frozen average
of 1000 is 19, so the sample 980 (a difference of 20) is not within it. -/
theorem release_test_truncated_two_percent :
    release_test { sample_config 4 with HYST_THRESHOLD := 5 } 1000 980 = false := by
  decide

/-! ## Release by timeout -/

/-- C5 (amended with the bound `RELEASE_TIMEOUT < 255`): from the state reached
by a step that goes from released to tripped, for every run of
`RELEASE_TIMEOUT + 1` samples none of which passes the release test, the status
is tripped after each of the first `RELEASE_TIMEOUT` steps and released after
the last one, and no step returns an event; and for every run of at least
`RELEASE_TIMEOUT + 1` samples whatsoever the status is released after one of
the first `RELEASE_TIMEOUT + 1` steps. -/
theorem released_after_timeout (cfg : Config) (x0 : Nat) (s0 : Capsensor)
    (samples : List Nat)
    (hT : cfg.RELEASE_TIMEOUT < 255)
    (h0 : s0.capsensor_status = Status.ST_RELEASED)
    (h1 : (capsensor_is_button_pressed cfg x0 s0).1.capsensor_status = Status.ST_TRIPPED) :
    (samples.length = cfg.RELEASE_TIMEOUT + 1 →
        none_release cfg (capsensor_is_button_pressed cfg x0 s0).1 samples →
        (trace cfg (capsensor_is_button_pressed cfg x0 s0).1 samples).map
            (fun t => t.capsensor_status)
          = List.replicate cfg.RELEASE_TIMEOUT Status.ST_TRIPPED ++ [Status.ST_RELEASED]
        ∧ events cfg (capsensor_is_button_pressed cfg x0 s0).1 samples
          = List.replicate (cfg.RELEASE_TIMEOUT + 1) false)
      ∧ (cfg.RELEASE_TIMEOUT + 1 ≤ samples.length →
          ∃ t ∈ (trace cfg (capsensor_is_button_pressed cfg x0 s0).1 samples).take
              (cfg.RELEASE_TIMEOUT + 1),
            t.capsensor_status = Status.ST_RELEASED) := by
  have hc : (capsensor_is_button_pressed cfg x0 s0).1.cycles = 0 := by
    cases ht : trip_test cfg s0.capsensor_rolling_avg (u16 x0) with
    | false =>
      have := (step_released_idle cfg x0 s0 h0 ht).2.1
      rw [h1] at this
      cases this
    | true =>
      by_cases hgt : u8 (s0.cycles + 1) > cfg.READS_TO_TRIP
      · exact (step_released_trip cfg x0 s0 h0 ht hgt).2.2.1
      · have := (step_released_count cfg x0 s0 h0 ht (Nat.not_lt.mp hgt)).2.1
        rw [h1] at this
        cases this
  constructor
  · intro hlen hnone
    obtain ⟨he, hst⟩ := timeout_countdown cfg hT cfg.RELEASE_TIMEOUT _ samples h1
      (by rw [hc]; omega) hlen hnone
    exact ⟨hst, he⟩
  · intro hlen
    exact release_within cfg hT cfg.RELEASE_TIMEOUT _ samples h1 (by rw [hc]; omega) hlen

/-- C5 at a concrete input: `RELEASE_TIMEOUT = 10`, a trip at baseline 1000 and
eleven further samples of 700. -/
theorem released_after_timeout_witness :
    (sample_config 4).RELEASE_TIMEOUT < 255
      ∧ (released_state 3 1000).capsensor_status = Status.ST_RELEASED
      ∧ (capsensor_is_button_pressed (sample_config 4) 700
          (released_state 3 1000)).1.capsensor_status = Status.ST_TRIPPED
      ∧ none_release (sample_config 4)
          (capsensor_is_button_pressed (sample_config 4) 700 (released_state 3 1000)).1
          (List.replicate 11 700)
      ∧ ((trace (sample_config 4)
            (capsensor_is_button_pressed (sample_config 4) 700 (released_state 3 1000)).1
            (List.replicate 11 700)).map (fun t => t.capsensor_status)
          = List.replicate 10 Status.ST_TRIPPED ++ [Status.ST_RELEASED]
        ∧ events (sample_config 4)
            (capsensor_is_button_pressed (sample_config 4) 700 (released_state 3 1000)).1
            (List.replicate 11 700) = List.replicate 11 false)
      ∧ (∃ t ∈ (trace (sample_config 4)
            (capsensor_is_button_pressed (sample_config 4) 700 (released_state 3 1000)).1
            (List.replicate 11 700)).take 11,
          t.capsensor_status = Status.ST_RELEASED) :=
  ⟨by decide, rfl, by decide, by decide,
    (released_after_timeout (sample_config 4) 700 (released_state 3 1000)
      (List.replicate 11 700) (by decide) rfl (by decide)).1 rfl (by decide),
    (released_after_timeout (sample_config 4) 700 (released_state 3 1000)
      (List.replicate 11 700) (by decide) rfl (by decide)).2 (by decide)⟩

/-- C5 fails without the bound: with `RELEASE_TIMEOUT = 255` the counter wraps
from 255 to 0 and never exceeds the constant, so the detector is still tripped
after 256 consecutive samples that all fail the release test. -/
theorem no_timeout_when_release_timeout_is_255 :
    (released_state 3 1000).capsensor_status = Status.ST_RELEASED
      ∧ (capsensor_is_button_pressed large_timeout_config 700
          (released_state 3 1000)).1.capsensor_status = Status.ST_TRIPPED
      ∧ (List.replicate 256 700).length = large_timeout_config.RELEASE_TIMEOUT + 1
      ∧ none_release large_timeout_config
          (capsensor_is_button_pressed large_timeout_config 700 (released_state 3 1000)).1
          (List.replicate 256 700)
      ∧ events large_timeout_config
          (capsensor_is_button_pressed large_timeout_config 700 (released_state 3 1000)).1
          (List.replicate 256 700) = List.replicate 256 false
      ∧ (trace large_timeout_config
          (capsensor_is_button_pressed large_timeout_config 700 (released_state 3 1000)).1
          (List.replicate 256 700)).map (fun t => t.capsensor_status)
          = List.replicate 256 Status.ST_TRIPPED :=
  ⟨rfl, by decide, List.length_replicate 256 700,
    hold_forever large_timeout_config (by decide) 700 256 _ (by decide) (by decide)⟩

/-! ## End-to-end trip from the power-on state -/

/-- C6 (amended to `AVERAGING_RATE` of at least 4, so that none of the first
three steps refreshes the baseline): from a released state with both counters
at 0 and a rolling average of 1000, with `READS_TO_TRIP = 3` and a trip
threshold that the drop from 1000 to 700 exceeds, four steps with the sample
700 return no event on steps 1 to 3 and the event on step 4, the status is
tripped after step 4 and the frozen average is 1000 after step 4. -/
theorem end_to_end_trip (cfg : Config) (s : Capsensor)
    (hR : cfg.READS_TO_TRIP = 3)
    (hA : 4 ≤ cfg.AVERAGING_RATE)
    (hT : trip_test cfg 1000 700 = true)
    (hs : s.capsensor_status = Status.ST_RELEASED)
    (hc : s.cycles = 0)
    (ha : s.avgs = 0)
    (hr : s.capsensor_rolling_avg = 1000) :
    events cfg s [700, 700, 700, 700] = [false, false, false, true]
      ∧ (trace cfg s [700, 700, 700, 700]).map (fun t => t.capsensor_status)
          = [Status.ST_RELEASED, Status.ST_RELEASED, Status.ST_RELEASED, Status.ST_TRIPPED]
      ∧ (run cfg s [700, 700, 700, 700]).capsensor_frozen_avg = 1000 := by
  have h700 : u16 700 = 700 := rfl
  have hm1 : u8 (0 + 1) % cfg.AVERAGING_RATE ≠ 0 := by
    rw [show u8 (0 + 1) = 1 from rfl, Nat.mod_eq_of_lt (by omega)]; omega
  have hm2 : u8 (1 + 1) % cfg.AVERAGING_RATE ≠ 0 := by
    rw [show u8 (1 + 1) = 2 from rfl, Nat.mod_eq_of_lt (by omega)]; omega
  have hm3 : u8 (2 + 1) % cfg.AVERAGING_RATE ≠ 0 := by
    rw [show u8 (2 + 1) = 3 from rfl, Nat.mod_eq_of_lt (by omega)]; omega
  have e1 : capsensor_is_button_pressed cfg 700 s
      = (⟨1, 1, 700, 1000, 1000, Status.ST_RELEASED⟩, false) := by
    rw [step_released_count_eq cfg 700 s hs (by rw [hr, h700]; exact hT)
      (by rw [hc, hR]; decide) (by rw [ha]; exact hm1), ha, hc, hr]
    rfl
  have e2 : capsensor_is_button_pressed cfg 700 ⟨1, 1, 700, 1000, 1000, Status.ST_RELEASED⟩
      = (⟨2, 2, 700, 1000, 1000, Status.ST_RELEASED⟩, false) := by
    rw [step_released_count_eq cfg 700 ⟨1, 1, 700, 1000, 1000, Status.ST_RELEASED⟩ rfl hT
      (by rw [hR]; decide) hm2]
    rfl
  have e3 : capsensor_is_button_pressed cfg 700 ⟨2, 2, 700, 1000, 1000, Status.ST_RELEASED⟩
      = (⟨3, 3, 700, 1000, 1000, Status.ST_RELEASED⟩, false) := by
    rw [step_released_count_eq cfg 700 ⟨2, 2, 700, 1000, 1000, Status.ST_RELEASED⟩ rfl hT
      (by rw [hR]; decide) hm3]
    rfl
  obtain ⟨e4, st4, _, f4⟩ := step_released_trip cfg 700
    ⟨3, 3, 700, 1000, 1000, Status.ST_RELEASED⟩ rfl hT (by rw [hR]; decide)
  simp only [events, trace, run, e1, e2, e3, e4, st4, f4, List.map_cons, List.map_nil]
  exact ⟨trivial, trivial, trivial⟩

/-- C6 at a concrete configuration with `AVERAGING_RATE = 4`. -/
theorem end_to_end_trip_witness :
    (sample_config 4).READS_TO_TRIP = 3
      ∧ 4 ≤ (sample_config 4).AVERAGING_RATE
      ∧ trip_test (sample_config 4) 1000 700 = true
      ∧ events (sample_config 4) (power_on 1000) [700, 700, 700, 700]
          = [false, false, false, true]
      ∧ (trace (sample_config 4) (power_on 1000) [700, 700, 700, 700]).map
            (fun t => t.capsensor_status)
          = [Status.ST_RELEASED, Status.ST_RELEASED, Status.ST_RELEASED, Status.ST_TRIPPED]
      ∧ (run (sample_config 4) (power_on 1000) [700, 700, 700, 700]).capsensor_frozen_avg
          = 1000 :=
  ⟨rfl, by decide, by decide,
    end_to_end_trip (sample_config 4) (power_on 1000) rfl (by decide) (by decide)
      rfl rfl rfl rfl⟩

/-- C6 fails for `AVERAGING_RATE = 1`: the baseline is refreshed on each of the
first three steps (1000, 981, 963, 947), the fourth step still returns the
event, and the frozen average it captures is 947, not 1000. -/
theorem frozen_avg_drifts_when_averaging_every_cycle :
    (sample_config 1).READS_TO_TRIP = 3
      ∧ trip_test (sample_config 1) 1000 700 = true
      ∧ (power_on 1000).capsensor_status = Status.ST_RELEASED
      ∧ (power_on 1000).cycles = 0
      ∧ (power_on 1000).avgs = 0
      ∧ (power_on 1000).capsensor_rolling_avg = 1000
      ∧ events (sample_config 1) (power_on 1000) [700, 700, 700, 700]
          = [false, false, false, true]
      ∧ (run (sample_config 1) (power_on 1000) [700, 700, 700, 700]).capsensor_frozen_avg
          = 947
      ∧ (run (sample_config 1) (power_on 1000) [700, 700, 700, 700]).capsensor_frozen_avg
          ≠ 1000 := by
  decide

/-! ## Baseline refresh -/

/-- C7: for every step after which the status is released and whose
incremented cycle counter `avgs` (modulo 256) is not a multiple of
`AVERAGING_RATE`, the rolling average after the step equals the rolling
average before it, for every sample. -/
theorem rolling_unchanged_off_boundary (cfg : Config) (x : Nat) (s : Capsensor)
    (hst : (capsensor_is_button_pressed cfg x s).1.capsensor_status = Status.ST_RELEASED)
    (hm : u8 (s.avgs + 1) % cfg.AVERAGING_RATE ≠ 0) :
    (capsensor_is_button_pressed cfg x s).1.capsensor_rolling_avg
      = s.capsensor_rolling_avg := by
  rw [step_rolling]
  simp [hst, hm]

/-- C7 at a step that releases from the tripped status by hysteresis. -/
theorem rolling_unchanged_off_boundary_witness :
    (capsensor_is_button_pressed (sample_config 4) 990
        (tripped_state 2 950 1000)).1.capsensor_status = Status.ST_RELEASED
      ∧ u8 ((tripped_state 2 950 1000).avgs + 1) % (sample_config 4).AVERAGING_RATE ≠ 0
      ∧ (capsensor_is_button_pressed (sample_config 4) 990
          (tripped_state 2 950 1000)).1.capsensor_rolling_avg = 950 :=
  ⟨by decide, by decide,
    rolling_unchanged_off_boundary (sample_config 4) 990 (tripped_state 2 950 1000)
      (by decide) (by decide)⟩

/-- C8 (amended to the range without wrap): on a step that refreshes the
baseline, for a 16-bit sample, the new rolling average equals the old one plus
`(sample - old) / 16` rounded to the nearest integer, halves up, exactly when
`15 * rolling_avg + sample + 8` does not exceed 65535. -/
theorem rolling_refresh_exact_iff (cfg : Config) (x : Nat) (s : Capsensor)
    (hx : x < 65536)
    (href : (capsensor_is_button_pressed cfg x s).1.capsensor_status = Status.ST_TRIPPED
      ∨ u8 (s.avgs + 1) % cfg.AVERAGING_RATE = 0) :
    (((capsensor_is_button_pressed cfg x s).1.capsensor_rolling_avg : Nat) : Int)
        = spec_rounded_update s.capsensor_rolling_avg x
      ↔ s.capsensor_rolling_avg * 15 + x + 8 < 65536 := by
  rw [step_rolling]
  simp only [href, if_true, rolling_update, u16, spec_rounded_update,
    Nat.mod_eq_of_lt hx]
  rw [Int.fdiv_eq_ediv _ (by decide : (0 : Int) ≤ 16)]
  push_cast
  omega

/-- C8 at a concrete input: a released step on the averaging boundary with
baseline 1000 and sample 990. -/
theorem rolling_refresh_exact_iff_witness :
    (990 : Nat) < 65536
      ∧ (capsensor_is_button_pressed (sample_config 1) 990
          (power_on 1000)).1.capsensor_status = Status.ST_RELEASED
      ∧ u8 ((power_on 1000).avgs + 1) % (sample_config 1).AVERAGING_RATE = 0
      ∧ (power_on 1000).capsensor_rolling_avg * 15 + 990 + 8 < 65536
      ∧ (((capsensor_is_button_pressed (sample_config 1) 990
            (power_on 1000)).1.capsensor_rolling_avg : Nat) : Int)
          = spec_rounded_update (power_on 1000).capsensor_rolling_avg 990 :=
  ⟨by decide, by decide, by decide, by decide,
    (rolling_refresh_exact_iff (sample_config 1) 990 (power_on 1000)
      (by decide) (Or.inr (by decide))).mpr (by decide)⟩

/-- C8 fails for some 16-bit values: with rolling average 5000 and sample 5000
the sum `5000 * 15 + 5000 + 8 = 80008` wraps to 14472 and the refreshed value
is 904, while the rounded update of the specification is 5000. -/
theorem rolling_refresh_wraps_at_5000 :
    (capsensor_is_button_pressed (sample_config 1) 5000
        (power_on 5000)).1.capsensor_status = Status.ST_RELEASED
      ∧ u8 ((power_on 5000).avgs + 1) % (sample_config 1).AVERAGING_RATE = 0
      ∧ (capsensor_is_button_pressed (sample_config 1) 5000
          (power_on 5000)).1.capsensor_rolling_avg = 904
      ∧ spec_rounded_update 5000 5000 = 5000
      ∧ (((capsensor_is_button_pressed (sample_config 1) 5000
            (power_on 5000)).1.capsensor_rolling_avg : Nat) : Int)
          ≠ spec_rounded_update (power_on 5000).capsensor_rolling_avg 5000 := by
  decide

/-- C9: for every step after which the status is tripped (the step that trips
and every step that stays tripped), for every value of the cycle counter and
of `AVERAGING_RATE`, the rolling average after the step is
`(rolling_avg * 15 + sample + 8) / 16` of the value before the step, computed
in 16-bit unsigned arithmetic. -/
theorem rolling_refreshed_while_tripped (cfg : Config) (x : Nat) (s : Capsensor)
    (hst : (capsensor_is_button_pressed cfg x s).1.capsensor_status = Status.ST_TRIPPED) :
    (capsensor_is_button_pressed cfg x s).1.capsensor_rolling_avg
      = (s.capsensor_rolling_avg * 15 + x % 65536 + 8) % 65536 / 16 := by
  rw [step_rolling]
  simp [hst, rolling_update, u16]

/-- C9 at a step that stays tripped, off the averaging boundary. -/
theorem rolling_refreshed_while_tripped_witness :
    (capsensor_is_button_pressed (sample_config 1000) 700
        (tripped_state 2 950 1000)).1.capsensor_status = Status.ST_TRIPPED
      ∧ (capsensor_is_button_pressed (sample_config 1000) 700
          (tripped_state 2 950 1000)).1.capsensor_rolling_avg
          = (950 * 15 + 700 % 65536 + 8) % 65536 / 16 :=
  ⟨by decide,
    rolling_refreshed_while_tripped (sample_config 1000) 700 (tripped_state 2 950 1000)
      (by decide)⟩

/-! ## The frozen average -/

/-- C10: on a step that goes from released to tripped the frozen average after
the step equals the rolling average before the step, and every step that
starts in the tripped status leaves the frozen average unchanged, for every
sample. -/
theorem frozen_avg_captured_then_frozen (cfg : Config) (x : Nat) (s : Capsensor) :
    (s.capsensor_status = Status.ST_RELEASED →
        (capsensor_is_button_pressed cfg x s).1.capsensor_status = Status.ST_TRIPPED →
        (capsensor_is_button_pressed cfg x s).1.capsensor_frozen_avg
          = s.capsensor_rolling_avg)
      ∧ (s.capsensor_status = Status.ST_TRIPPED →
          (capsensor_is_button_pressed cfg x s).1.capsensor_frozen_avg
            = s.capsensor_frozen_avg) := by
  rw [step_frozen]
  constructor
  · intro hs _; simp [hs]
  · intro hs; simp [hs]

/-- C10 at concrete inputs: a trip at baseline 1000 captures 1000; a tripped
step keeps the frozen average 1000 while the rolling average moves away from
950. -/
theorem frozen_avg_captured_then_frozen_witness :
    (released_state 3 1000).capsensor_status = Status.ST_RELEASED
      ∧ (capsensor_is_button_pressed (sample_config 4) 700
          (released_state 3 1000)).1.capsensor_status = Status.ST_TRIPPED
      ∧ (capsensor_is_button_pressed (sample_config 4) 700
          (released_state 3 1000)).1.capsensor_frozen_avg = 1000
      ∧ (tripped_state 2 950 1000).capsensor_status = Status.ST_TRIPPED
      ∧ (capsensor_is_button_pressed (sample_config 4) 700
          (tripped_state 2 950 1000)).1.capsensor_frozen_avg = 1000
      ∧ (capsensor_is_button_pressed (sample_config 4) 700
          (tripped_state 2 950 1000)).1.capsensor_rolling_avg ≠ 950 :=
  ⟨rfl, by decide,
    (frozen_avg_captured_then_frozen (sample_config 4) 700 (released_state 3 1000)).1
      rfl (by decide),
    rfl,
    (frozen_avg_captured_then_frozen (sample_config 4) 700 (tripped_state 2 950 1000)).2 rfl,
    by decide⟩

/-! ## Further lemmas on one step -/

/-- A step that starts in the tripped status returns no event and either stays
tripped or is released with the counter cleared. -/
theorem step_from_tripped (cfg : Config) (x : Nat) (s : Capsensor)
    (hs : s.capsensor_status = Status.ST_TRIPPED) :
    (capsensor_is_button_pressed cfg x s).2 = false
      ∧ ((capsensor_is_button_pressed cfg x s).1.capsensor_status = Status.ST_TRIPPED
        ∨ ((capsensor_is_button_pressed cfg x s).1.capsensor_status = Status.ST_RELEASED
          ∧ (capsensor_is_button_pressed cfg x s).1.cycles = 0)) := by
  cases hr : release_test cfg s.capsensor_frozen_avg (u16 x) with
  | true =>
    obtain ⟨he, hst, hcy, _⟩ := step_tripped_release cfg x s hs hr
    exact ⟨he, Or.inr ⟨hst, hcy⟩⟩
  | false =>
    by_cases hgt : u8 (s.cycles + 1) > cfg.RELEASE_TIMEOUT
    · obtain ⟨he, hst, hcy, _⟩ := step_tripped_timeout cfg x s hs hr hgt
      exact ⟨he, Or.inr ⟨hst, hcy⟩⟩
    · obtain ⟨he, hst, _, _⟩ := step_tripped_hold cfg x s hs hr (Nat.not_lt.mp hgt)
      exact ⟨he, Or.inl hst⟩

/-- A released step whose counter is still below `READS_TO_TRIP` returns no
event, stays released and raises the counter by at most one. -/
theorem step_from_released_quiet (cfg : Config) (x : Nat) (s : Capsensor)
    (hs : s.capsensor_status = Status.ST_RELEASED)
    (hc : s.cycles + 1 ≤ cfg.READS_TO_TRIP) :
    (capsensor_is_button_pressed cfg x s).2 = false
      ∧ (capsensor_is_button_pressed cfg x s).1.capsensor_status = Status.ST_RELEASED
      ∧ (capsensor_is_button_pressed cfg x s).1.cycles ≤ s.cycles + 1 := by
  have hu : u8 (s.cycles + 1) ≤ s.cycles + 1 := Nat.mod_le _ _
  cases ht : trip_test cfg s.capsensor_rolling_avg (u16 x) with
  | false =>
    obtain ⟨he, hst, hcy, _⟩ := step_released_idle cfg x s hs ht
    exact ⟨he, hst, by rw [hcy]; omega⟩
  | true =>
    obtain ⟨he, hst, hcy, _⟩ := step_released_count cfg x s hs ht (le_trans hu hc)
    exact ⟨he, hst, by rw [hcy]; exact hu⟩

/-- A step that returns the event leaves the status tripped. -/
theorem step_event_tripped (cfg : Config) (x : Nat) (s : Capsensor)
    (he : (capsensor_is_button_pressed cfg x s).2 = true) :
    (capsensor_is_button_pressed cfg x s).1.capsensor_status = Status.ST_TRIPPED := by
  cases hs : s.capsensor_status with
  | ST_TRIPPED =>
    have := (step_from_tripped cfg x s hs).1
    rw [he] at this
    cases this
  | ST_RELEASED =>
    cases ht : trip_test cfg s.capsensor_rolling_avg (u16 x) with
    | false =>
      have := (step_released_idle cfg x s hs ht).1
      rw [he] at this
      cases this
    | true =>
      by_cases hgt : u8 (s.cycles + 1) > cfg.READS_TO_TRIP
      · exact (step_released_trip cfg x s hs ht hgt).2.1
      · have := (step_released_count cfg x s hs ht (Nat.not_lt.mp hgt)).1
        rw [he] at this
        cases this

/-- No event within the first `n` steps: from a tripped state for
`n ≤ READS_TO_TRIP + 1`, from a released state with counter `c` for
`c + n ≤ READS_TO_TRIP`. -/
theorem quiet_steps (cfg : Config) :
    ∀ (samples : List Nat) (n : Nat) (s : Capsensor),
      (s.capsensor_status = Status.ST_TRIPPED ∧ n ≤ cfg.READS_TO_TRIP + 1)
        ∨ (s.capsensor_status = Status.ST_RELEASED ∧ s.cycles + n ≤ cfg.READS_TO_TRIP) →
      ∀ k, k < n → (events cfg s samples)[k]? ≠ some true := by
  intro samples
  induction samples with
  | nil => intro n s _ k _; simp [events]
  | cons x xs ih =>
    intro n s hg k hk
    rcases hg with ⟨hs, hn⟩ | ⟨hs, hn⟩
    · obtain ⟨he, hnext⟩ := step_from_tripped cfg x s hs
      cases k with
      | zero => simp [events, he]
      | succ k =>
        simp only [events, List.getElem?_cons_succ]
        refine ih (n - 1) _ ?_ k (by omega)
        rcases hnext with hst | ⟨hst, hcy⟩
        · exact Or.inl ⟨hst, by omega⟩
        · exact Or.inr ⟨hst, by rw [hcy]; omega⟩
    · obtain ⟨he, hst, hcy⟩ := step_from_released_quiet cfg x s hs (by omega)
      cases k with
      | zero => simp [events, he]
      | succ k =>
        simp only [events, List.getElem?_cons_succ]
        exact ih (n - 1) _ (Or.inr ⟨hst, by omega⟩) k (by omega)

/-- Two events of one run are at least `READS_TO_TRIP + 2` steps apart. -/
theorem events_gap (cfg : Config) :
    ∀ (samples : List Nat) (s : Capsensor) (i j : Nat), i < j →
      (events cfg s samples)[i]? = some true →
      (events cfg s samples)[j]? = some true →
      i + cfg.READS_TO_TRIP + 2 ≤ j := by
  intro samples
  induction samples with
  | nil => intro s i j _ hi _; simp [events] at hi
  | cons x xs ih =>
    intro s i j hij hi hj
    cases j with
    | zero => omega
    | succ j =>
      simp only [events, List.getElem?_cons_succ] at hj
      cases i with
      | zero =>
        simp only [events, List.getElem?_cons_zero, Option.some.injEq] at hi
        have hst := step_event_tripped cfg x s hi
        by_contra hlt
        exact quiet_steps cfg xs (cfg.READS_TO_TRIP + 1) _ (Or.inl ⟨hst, le_refl _⟩) j
          (by omega) hj
      | succ i =>
        simp only [events, List.getElem?_cons_succ] at hi
        have := ih _ i j (by omega) hi hj
        omega

/-- The trip test compares against `trip_threshold`. -/
theorem trip_test_threshold (cfg : Config) (rolling_avg freq : Nat) :
    trip_test cfg rolling_avg freq
      = decide (int16 (sub16 rolling_avg freq) > trip_threshold cfg rolling_avg) := rfl

/-- The release test compares against `release_threshold`. -/
theorem release_test_threshold (cfg : Config) (frozen_avg freq : Nat) :
    release_test cfg frozen_avg freq
      = decide (int16 (sub16 frozen_avg freq) < release_threshold cfg frozen_avg) := rfl

/-- The scaled product of the threshold expression equals the exact quotient
exactly when the product fits 16 bits. -/
theorem scaled_threshold_exact_iff (k b : Nat) :
    int16 (u16 (k * b) / 256) = (((k * b / 256 : Nat)) : Int) ↔ k * b < 65536 := by
  simp only [int16, u16]
  have h1 : k * b % 65536 / 256 % 65536 < 32768 := by omega
  rw [if_pos h1]
  omega

/-! ## Lemmas on the control cycle -/

/-- The override leaves the deadline alone. -/
theorem main_power_override_t0 (reading : Power) (m : MainState) :
    (main_power_override reading m).1.t0 = m.t0 := by
  simp only [main_power_override]
  split <;> (try split) <;> rfl

/-- The override leaves the detector state alone. -/
theorem main_power_override_sensor (reading : Power) (m : MainState) :
    (main_power_override reading m).1.sensor = m.sensor := by
  simp only [main_power_override]
  split <;> (try split) <;> rfl

/-- The override leaves `power_status` alone. -/
theorem main_power_override_power_status (reading : Power) (m : MainState) :
    (main_power_override reading m).1.power_status = m.power_status := by
  simp only [main_power_override]
  split <;> (try split) <;> rfl

/-- The calls made by the override. -/
theorem main_power_override_calls (reading : Power) (m : MainState) :
    (main_power_override reading m).2
      = if reading = Power.POWER_OUTAGE ∧ m.switch_status = Switch.SWITCH_ON
        then [ActuatorCall.switch_off] else [] := by
  simp only [main_power_override]
  split <;> (try split) <;> simp_all

/-- The switch status after the override. -/
theorem main_power_override_switch (reading : Power) (m : MainState) :
    (main_power_override reading m).1.switch_status
      = if reading = Power.POWER_OUTAGE then Switch.SWITCH_OFF else m.switch_status := by
  simp only [main_power_override]
  cases hsw : m.switch_status <;> split <;> simp_all [switch_off]

/-- The calls made by the sampling block. -/
theorem main_sampling_calls (cfg : Config) (tmr1 sample : Nat) (m : MainState) :
    (main_sampling cfg tmr1 sample m).2
      = if deadline_reached cfg tmr1 m.t0 = true
            ∧ (capsensor_is_button_pressed cfg sample m.sensor).2 = true
            ∧ m.power_status = Power.POWER_OK
        then [ActuatorCall.switch_toggle] else [] := by
  simp only [main_sampling]
  split <;> (try split) <;> simp_all

/-- The switch status after the sampling block. -/
theorem main_sampling_switch (cfg : Config) (tmr1 sample : Nat) (m : MainState) :
    (main_sampling cfg tmr1 sample m).1.switch_status
      = if deadline_reached cfg tmr1 m.t0 = true
            ∧ (capsensor_is_button_pressed cfg sample m.sensor).2 = true
            ∧ m.power_status = Power.POWER_OK
        then (switch_toggle m).switch_status else m.switch_status := by
  simp only [main_sampling]
  by_cases hd : deadline_reached cfg tmr1 m.t0 = true
  · by_cases hc : (capsensor_is_button_pressed cfg sample m.sensor).2 = true
        ∧ m.power_status = Power.POWER_OK
    · simp [hd, hc, switch_toggle]
    · simp [hd, hc]
  · simp [hd]

/-- The detector state after the sampling block. -/
theorem main_sampling_sensor (cfg : Config) (tmr1 sample : Nat) (m : MainState) :
    (main_sampling cfg tmr1 sample m).1.sensor
      = if deadline_reached cfg tmr1 m.t0 = true
        then (capsensor_is_button_pressed cfg sample m.sensor).1 else m.sensor := by
  simp only [main_sampling]
  split <;> (try split) <;> simp_all [switch_toggle]

/-- The deadline after the sampling block. -/
theorem main_sampling_t0 (cfg : Config) (tmr1 sample : Nat) (m : MainState) :
    (main_sampling cfg tmr1 sample m).1.t0
      = if deadline_reached cfg tmr1 m.t0 = true
        then u16 (m.t0 + cfg.TIME_BETWEEN_READS) else m.t0 := by
  simp only [main_sampling]
  split <;> (try split) <;> simp_all [switch_toggle]

/-- The detector state after a control cycle. -/
theorem main_loop_cycle_sensor (cfg : Config) (inp : CycleInput) (m : MainState) :
    (main_loop_cycle cfg inp m).1.sensor
      = if deadline_reached cfg inp.tmr1 m.t0 = true
        then (capsensor_is_button_pressed cfg inp.sample m.sensor).1
        else m.sensor := by
  simp only [main_loop_cycle, main_sampling_sensor, main_power_override_t0,
    main_power_override_sensor]

/-- The deadline after a control cycle. -/
theorem main_loop_cycle_t0 (cfg : Config) (inp : CycleInput) (m : MainState) :
    (main_loop_cycle cfg inp m).1.t0
      = if deadline_reached cfg inp.tmr1 m.t0 = true
        then u16 (m.t0 + cfg.TIME_BETWEEN_READS)
        else m.t0 := by
  simp only [main_loop_cycle, main_sampling_t0, main_power_override_t0]

/-- The actuator calls of a control cycle. -/
theorem main_loop_cycle_calls (cfg : Config) (inp : CycleInput) (m : MainState) :
    (main_loop_cycle cfg inp m).2
      = (if inp.power_reading = Power.POWER_OUTAGE ∧ m.switch_status = Switch.SWITCH_ON
          then [ActuatorCall.switch_off] else [])
        ++ (if deadline_reached cfg inp.tmr1 m.t0 = true
              ∧ (capsensor_is_button_pressed cfg inp.sample m.sensor).2 = true
              ∧ inp.power_status = Power.POWER_OK
            then [ActuatorCall.switch_toggle] else []) := by
  simp only [main_loop_cycle, main_sampling_calls, main_power_override_calls,
    main_power_override_t0, main_power_override_sensor, main_power_override_power_status]

/-! ## Positivity of the rolling average -/

/-- C11 (amended to the range in which it holds): after `capsensor_init` the
rolling average is strictly positive exactly when the timer total of the
sixteen gate windows is at least 16, and for every detector state with a
positive rolling average and every 16-bit sample such that
`15 * rolling_avg + sample + 8` does not exceed 65535 the rolling average after
the step is positive. -/
theorem rolling_avg_positive_in_range (cfg : Config) (tmr1 x : Nat) (s0 s : Capsensor)
    (hx : x < 65536) :
    (0 < (capsensor_init tmr1 s0).capsensor_rolling_avg ↔ 16 ≤ tmr1 % 65536)
      ∧ (0 < s.capsensor_rolling_avg → s.capsensor_rolling_avg * 15 + x + 8 < 65536 →
          0 < (capsensor_is_button_pressed cfg x s).1.capsensor_rolling_avg) := by
  constructor
  · simp only [capsensor_init, u16]; omega
  · intro hpos hno
    rw [step_rolling]
    split
    · simp only [rolling_update, u16, Nat.mod_eq_of_lt hx, Nat.mod_eq_of_lt hno]; omega
    · exact hpos

/-- C11 at concrete inputs: a timer total of 16000 seeds 1000, and a tripped
step with baseline 950 and sample 700 keeps the rolling average positive. -/
theorem rolling_avg_positive_in_range_witness :
    (700 : Nat) < 65536
      ∧ 16 ≤ 16000 % 65536
      ∧ 0 < (capsensor_init 16000 (power_on 0)).capsensor_rolling_avg
      ∧ 0 < (tripped_state 2 950 1000).capsensor_rolling_avg
      ∧ (tripped_state 2 950 1000).capsensor_rolling_avg * 15 + 700 + 8 < 65536
      ∧ 0 < (capsensor_is_button_pressed (sample_config 4) 700
          (tripped_state 2 950 1000)).1.capsensor_rolling_avg :=
  ⟨by decide, by decide,
    (rolling_avg_positive_in_range (sample_config 4) 16000 700 (power_on 0)
      (tripped_state 2 950 1000) (by decide)).1.mpr (by decide),
    by decide, by decide,
    (rolling_avg_positive_in_range (sample_config 4) 16000 700 (power_on 0)
      (tripped_state 2 950 1000) (by decide)).2 (by decide) (by decide)⟩

/-- C11 fails outside that range: a timer total of 15 seeds the rolling
average with 0, and with rolling average 4096 and sample 4096 the sum
`4096 * 15 + 4096 + 8 = 65544` wraps to 8, so the refreshed value is 0. -/
theorem rolling_avg_can_reach_zero :
    (capsensor_init 15 (power_on 0)).capsensor_rolling_avg = 0
      ∧ 0 < (released_state 0 4096).capsensor_rolling_avg
      ∧ (4096 : Nat) < 65536
      ∧ (capsensor_is_button_pressed (sample_config 1) 4096
          (released_state 0 4096)).1.capsensor_rolling_avg = 0 := by
  decide

/-! ## The control cycle: override, actuation, sensing, scheduling -/

/-- C12: in one control cycle `switch_off` is called exactly when `power_read`
returns the outage value and the switch status is on; in that case the status
is off after the override; when the reading is the outage value and the status
is already off, or when the reading is the ok value, the override makes no
call and leaves the state as it is. -/
theorem power_override_in_cycle (cfg : Config) (inp : CycleInput) (m : MainState) :
    (ActuatorCall.switch_off ∈ (main_loop_cycle cfg inp m).2
        ↔ inp.power_reading = Power.POWER_OUTAGE ∧ m.switch_status = Switch.SWITCH_ON)
      ∧ (inp.power_reading = Power.POWER_OUTAGE → m.switch_status = Switch.SWITCH_ON →
          (main_power_override inp.power_reading m).2 = [ActuatorCall.switch_off]
            ∧ (main_power_override inp.power_reading m).1.switch_status
                = Switch.SWITCH_OFF)
      ∧ (inp.power_reading = Power.POWER_OUTAGE → m.switch_status = Switch.SWITCH_OFF →
          (main_power_override inp.power_reading m).2 = []
            ∧ (main_power_override inp.power_reading m).1 = m)
      ∧ (inp.power_reading = Power.POWER_OK →
          (main_power_override inp.power_reading m).2 = []
            ∧ (main_power_override inp.power_reading m).1 = m) := by
  refine ⟨?_, ?_, ?_, ?_⟩
  · rw [main_loop_cycle_calls]
    split <;> split <;> simp_all
  · intro h1 h2; simp [main_power_override, h1, h2, switch_off]
  · intro h1 h2; simp [main_power_override, h1, h2]
  · intro h1; simp [main_power_override, h1]

/-- C12 at concrete inputs: outage with the switch on, outage with the switch
off, and no outage with the switch on. -/
theorem power_override_in_cycle_witness :
    (main_loop_cycle (sample_config 4) ⟨Power.POWER_OUTAGE, Power.POWER_OUTAGE, 0, 0⟩
        (main_state 0 (power_on 1000) Switch.SWITCH_ON Power.POWER_OK)).2
        = [ActuatorCall.switch_off]
      ∧ (main_power_override Power.POWER_OUTAGE
          (main_state 0 (power_on 1000) Switch.SWITCH_ON Power.POWER_OK)).1.switch_status
          = Switch.SWITCH_OFF
      ∧ (main_power_override Power.POWER_OUTAGE
          (main_state 0 (power_on 1000) Switch.SWITCH_OFF Power.POWER_OK)).2 = []
      ∧ (main_power_override Power.POWER_OK
          (main_state 0 (power_on 1000) Switch.SWITCH_ON Power.POWER_OK)).1
          = main_state 0 (power_on 1000) Switch.SWITCH_ON Power.POWER_OK :=
  ⟨by decide,
    ((power_override_in_cycle (sample_config 4)
      ⟨Power.POWER_OUTAGE, Power.POWER_OUTAGE, 0, 0⟩
      (main_state 0 (power_on 1000) Switch.SWITCH_ON Power.POWER_OK)).2.1 rfl rfl).2,
    ((power_override_in_cycle (sample_config 4)
      ⟨Power.POWER_OUTAGE, Power.POWER_OUTAGE, 0, 0⟩
      (main_state 0 (power_on 1000) Switch.SWITCH_OFF Power.POWER_OK)).2.2.1 rfl rfl).1,
    ((power_override_in_cycle (sample_config 4)
      ⟨Power.POWER_OK, Power.POWER_OK, 0, 0⟩
      (main_state 0 (power_on 1000) Switch.SWITCH_ON Power.POWER_OK)).2.2.2 rfl).2⟩

/-- C13: in one control cycle `switch_toggle` is called exactly when the
sampling deadline is reached, the detector step returns the event and
`power_status` is ok; and in a cycle in which `power_read` returns the outage
value and `power_status` holds it, the switch status is off at the end of the
cycle, whether or not the detector step returns the event. -/
theorem toggle_gated_by_power (cfg : Config) (inp : CycleInput) (m : MainState) :
    (ActuatorCall.switch_toggle ∈ (main_loop_cycle cfg inp m).2
        ↔ deadline_reached cfg inp.tmr1 m.t0 = true
          ∧ (capsensor_is_button_pressed cfg inp.sample m.sensor).2 = true
          ∧ inp.power_status = Power.POWER_OK)
      ∧ (inp.power_reading = Power.POWER_OUTAGE → inp.power_status = Power.POWER_OUTAGE →
          (main_loop_cycle cfg inp m).1.switch_status = Switch.SWITCH_OFF) := by
  constructor
  · rw [main_loop_cycle_calls]
    split <;> split <;> simp_all
  · intro h1 h2
    simp only [main_loop_cycle, main_sampling_switch, main_power_override_switch,
      main_power_override_power_status, h1, h2]
    simp

/-- C13 at concrete inputs: the tripping sample toggles the switch when the
power is ok, and during an outage the same sample leaves the switch off. -/
theorem toggle_gated_by_power_witness :
    ActuatorCall.switch_toggle ∈ (main_loop_cycle (sample_config 4)
        ⟨Power.POWER_OK, Power.POWER_OK, 30000, 700⟩
        (main_state 0 (released_state 3 1000) Switch.SWITCH_OFF Power.POWER_OK)).2
      ∧ (capsensor_is_button_pressed (sample_config 4) 700 (released_state 3 1000)).2 = true
      ∧ (main_loop_cycle (sample_config 4)
          ⟨Power.POWER_OUTAGE, Power.POWER_OUTAGE, 30000, 700⟩
          (main_state 0 (released_state 3 1000) Switch.SWITCH_ON Power.POWER_OK)).1.switch_status
          = Switch.SWITCH_OFF :=
  ⟨(toggle_gated_by_power (sample_config 4) ⟨Power.POWER_OK, Power.POWER_OK, 30000, 700⟩
      (main_state 0 (released_state 3 1000) Switch.SWITCH_OFF Power.POWER_OK)).1.mpr
      ⟨by decide, by decide, rfl⟩,
    by decide,
    (toggle_gated_by_power (sample_config 4)
      ⟨Power.POWER_OUTAGE, Power.POWER_OUTAGE, 30000, 700⟩
      (main_state 0 (released_state 3 1000) Switch.SWITCH_ON Power.POWER_OK)).2 rfl rfl⟩

/-- C14: two control cycles that start from the same detector state and the
same deadline and read the same timer value and the same sample end with the
same detector state and the same deadline, whatever the power reading, the
power status and the switch status of each; and whenever the deadline is
reached the detector state after the cycle is the state after the detector
step, also during an outage. -/
theorem sensing_independent_of_power (cfg : Config) (inp1 inp2 : CycleInput)
    (m1 m2 : MainState)
    (hs : m1.sensor = m2.sensor) (ht : m1.t0 = m2.t0)
    (htm : inp1.tmr1 = inp2.tmr1) (hsa : inp1.sample = inp2.sample) :
    (main_loop_cycle cfg inp1 m1).1.sensor = (main_loop_cycle cfg inp2 m2).1.sensor
      ∧ (main_loop_cycle cfg inp1 m1).1.t0 = (main_loop_cycle cfg inp2 m2).1.t0
      ∧ (deadline_reached cfg inp1.tmr1 m1.t0 = true →
          (main_loop_cycle cfg inp1 m1).1.sensor
            = (capsensor_is_button_pressed cfg inp1.sample m1.sensor).1) := by
  refine ⟨?_, ?_, ?_⟩
  · rw [main_loop_cycle_sensor, main_loop_cycle_sensor, hs, ht, htm, hsa]
  · rw [main_loop_cycle_t0, main_loop_cycle_t0, ht, htm]
  · intro hd
    rw [main_loop_cycle_sensor, if_pos hd]

/-- C14 at concrete inputs: one cycle with power ok and the switch on, one
during an outage with the switch off; both run the tripping step. -/
theorem sensing_independent_of_power_witness :
    (main_loop_cycle (sample_config 4) ⟨Power.POWER_OK, Power.POWER_OK, 30000, 700⟩
        (main_state 0 (released_state 3 1000) Switch.SWITCH_ON Power.POWER_OK)).1.sensor
        = (main_loop_cycle (sample_config 4)
            ⟨Power.POWER_OUTAGE, Power.POWER_OUTAGE, 30000, 700⟩
            (main_state 0 (released_state 3 1000) Switch.SWITCH_OFF
              Power.POWER_OUTAGE)).1.sensor
      ∧ (main_loop_cycle (sample_config 4)
          ⟨Power.POWER_OUTAGE, Power.POWER_OUTAGE, 30000, 700⟩
          (main_state 0 (released_state 3 1000) Switch.SWITCH_OFF
            Power.POWER_OUTAGE)).1.sensor.capsensor_status = Status.ST_TRIPPED :=
  ⟨(sensing_independent_of_power (sample_config 4)
      ⟨Power.POWER_OK, Power.POWER_OK, 30000, 700⟩
      ⟨Power.POWER_OUTAGE, Power.POWER_OUTAGE, 30000, 700⟩
      (main_state 0 (released_state 3 1000) Switch.SWITCH_ON Power.POWER_OK)
      (main_state 0 (released_state 3 1000) Switch.SWITCH_OFF Power.POWER_OUTAGE)
      rfl rfl rfl rfl).1,
    by decide⟩

/-- C15: in a control cycle that samples, the new deadline is the previous one
plus `TIME_BETWEEN_READS` modulo `2^16`, whatever the timer value that passed
the deadline test; in a cycle that does not sample, the deadline and the whole
detector state are unchanged. -/
theorem deadline_accumulates (cfg : Config) (inp : CycleInput) (m : MainState) :
    (deadline_reached cfg inp.tmr1 m.t0 = true →
        (main_loop_cycle cfg inp m).1.t0 = (m.t0 + cfg.TIME_BETWEEN_READS) % 65536)
      ∧ (deadline_reached cfg inp.tmr1 m.t0 = false →
          (main_loop_cycle cfg inp m).1.t0 = m.t0
            ∧ (main_loop_cycle cfg inp m).1.sensor = m.sensor) := by
  constructor
  · intro hd
    rw [main_loop_cycle_t0, if_pos hd]; rfl
  · intro hd
    rw [main_loop_cycle_t0, main_loop_cycle_sensor]
    simp [hd]

/-- C15 at concrete inputs: from the deadline 60000 a sampling cycle moves to
`80000 - 65536 = 14464`, and a cycle before the deadline changes nothing. -/
theorem deadline_accumulates_witness :
    deadline_reached (sample_config 4) 20000 60000 = true
      ∧ (main_loop_cycle (sample_config 4) ⟨Power.POWER_OK, Power.POWER_OK, 20000, 700⟩
          (main_state 60000 (power_on 1000) Switch.SWITCH_OFF Power.POWER_OK)).1.t0 = 14464
      ∧ deadline_reached (sample_config 4) 5000 0 = false
      ∧ (main_loop_cycle (sample_config 4) ⟨Power.POWER_OK, Power.POWER_OK, 5000, 700⟩
          (main_state 0 (power_on 1000) Switch.SWITCH_OFF Power.POWER_OK)).1.t0 = 0
      ∧ (main_loop_cycle (sample_config 4) ⟨Power.POWER_OK, Power.POWER_OK, 5000, 700⟩
          (main_state 0 (power_on 1000) Switch.SWITCH_OFF Power.POWER_OK)).1.sensor
          = power_on 1000 :=
  ⟨by decide,
    (deadline_accumulates (sample_config 4) ⟨Power.POWER_OK, Power.POWER_OK, 20000, 700⟩
      (main_state 60000 (power_on 1000) Switch.SWITCH_OFF Power.POWER_OK)).1 (by decide),
    by decide,
    (deadline_accumulates (sample_config 4) ⟨Power.POWER_OK, Power.POWER_OK, 5000, 700⟩
      (main_state 0 (power_on 1000) Switch.SWITCH_OFF Power.POWER_OK)).2 (by decide)⟩

/-! ## Threshold arithmetic -/

/-- C16 (amended to the range in which it holds): for threshold constants that
are `int` literals (below 32768), the trip threshold that the code compares
against equals the quotient of `TRIP_THRESHOLD * b` by 256 truncated toward
zero exactly when the product does not exceed 65535, and likewise the release
threshold with `HYST_THRESHOLD`. -/
theorem threshold_exact_iff_fits (cfg : Config) (b : Nat)
    (hT : cfg.TRIP_THRESHOLD < 32768) (hH : cfg.HYST_THRESHOLD < 32768) :
    (trip_threshold cfg b = (((cfg.TRIP_THRESHOLD * b / 256 : Nat)) : Int)
        ↔ cfg.TRIP_THRESHOLD * b < 65536)
      ∧ (release_threshold cfg b = (((cfg.HYST_THRESHOLD * b / 256 : Nat)) : Int)
        ↔ cfg.HYST_THRESHOLD * b < 65536) := by
  -- the bounds place both constants in the range where the 16-bit product is
  -- what lines 125 and 137 compute
  have _ := hT
  have _ := hH
  exact ⟨scaled_threshold_exact_iff cfg.TRIP_THRESHOLD b,
    scaled_threshold_exact_iff cfg.HYST_THRESHOLD b⟩

/-- C16 at the baseline 1000: trip threshold `26000 / 256 = 101`, release
threshold `6000 / 256 = 23`. -/
theorem threshold_exact_iff_fits_witness :
    (sample_config 4).TRIP_THRESHOLD < 32768
      ∧ (sample_config 4).HYST_THRESHOLD < 32768
      ∧ trip_threshold (sample_config 4) 1000 = 101
      ∧ release_threshold (sample_config 4) 1000 = 23
      ∧ trip_threshold (sample_config 4) 1000
          = ((((sample_config 4).TRIP_THRESHOLD * 1000 / 256 : Nat)) : Int)
      ∧ release_threshold (sample_config 4) 1000
          = ((((sample_config 4).HYST_THRESHOLD * 1000 / 256 : Nat)) : Int) :=
  ⟨by decide, by decide, by decide, by decide,
    (threshold_exact_iff_fits (sample_config 4) 1000 (by decide) (by decide)).1.mpr
      (by decide),
    (threshold_exact_iff_fits (sample_config 4) 1000 (by decide) (by decide)).2.mpr
      (by decide)⟩

/-- C16 fails for some 16-bit baselines: with `TRIP_THRESHOLD = 26` and the
baseline 3000 the product 78000 wraps to 12464 and the threshold is 48, not
304; with `HYST_THRESHOLD = 6` and the baseline 12000 the product 72000 wraps
and the threshold is 25, not 281.  Both constants are `int` literals. -/
theorem trip_threshold_wraps_at_3000 :
    (sample_config 4).TRIP_THRESHOLD < 32768
      ∧ (sample_config 4).HYST_THRESHOLD < 32768
      ∧ (3000 : Nat) < 65536
      ∧ trip_threshold (sample_config 4) 3000 = 48
      ∧ ((((sample_config 4).TRIP_THRESHOLD * 3000 / 256 : Nat)) : Int) = 304
      ∧ trip_threshold (sample_config 4) 3000
          ≠ ((((sample_config 4).TRIP_THRESHOLD * 3000 / 256 : Nat)) : Int)
      ∧ release_threshold (sample_config 4) 12000 = 25
      ∧ release_threshold (sample_config 4) 12000
          ≠ ((((sample_config 4).HYST_THRESHOLD * 12000 / 256 : Nat)) : Int) := by
  decide

/-! ## Samples at or above the baseline -/

/-- C17 (amended with a bound on the rise): for `TRIP_THRESHOLD` an `int`
literal (below 32768), for every released state and every sample that is
greater than or equal to the rolling average by at most 32768, the trip test
fails, so the step clears the counter, leaves the status released and returns
no event. -/
theorem no_trip_when_sample_not_below (cfg : Config) (x : Nat) (s : Capsensor)
    (hT : cfg.TRIP_THRESHOLD < 32768)
    (hs : s.capsensor_status = Status.ST_RELEASED)
    (hge : s.capsensor_rolling_avg ≤ x)
    (hd : x - s.capsensor_rolling_avg ≤ 32768) :
    trip_test cfg s.capsensor_rolling_avg (u16 x) = false
      ∧ (capsensor_is_button_pressed cfg x s).1.cycles = 0
      ∧ (capsensor_is_button_pressed cfg x s).1.capsensor_status = Status.ST_RELEASED
      ∧ (capsensor_is_button_pressed cfg x s).2 = false := by
  -- the bound places the constant in the range where the 16-bit product is
  -- what line 125 computes
  have _ := hT
  have ht : trip_test cfg s.capsensor_rolling_avg (u16 x) = false := by
    simp only [trip_test, decide_eq_false_iff_not, not_lt, gt_iff_lt, int16, u16, sub16]
    have h1 : cfg.TRIP_THRESHOLD * s.capsensor_rolling_avg % 65536 / 256 % 65536 < 32768 := by
      omega
    rw [if_pos h1]
    split <;> omega
  obtain ⟨he, hst, hcy, _⟩ := step_released_idle cfg x s hs ht
  exact ⟨ht, hcy, hst, he⟩

/-- C17 at a concrete input: baseline 1000, sample 1200. -/
theorem no_trip_when_sample_not_below_witness :
    (sample_config 4).TRIP_THRESHOLD < 32768
      ∧ (released_state 3 1000).capsensor_status = Status.ST_RELEASED
      ∧ (released_state 3 1000).capsensor_rolling_avg ≤ 1200
      ∧ trip_test (sample_config 4) (released_state 3 1000).capsensor_rolling_avg (u16 1200)
          = false
      ∧ (capsensor_is_button_pressed (sample_config 4) 1200 (released_state 3 1000)).1.cycles
          = 0
      ∧ (capsensor_is_button_pressed (sample_config 4) 1200
          (released_state 3 1000)).1.capsensor_status = Status.ST_RELEASED
      ∧ (capsensor_is_button_pressed (sample_config 4) 1200 (released_state 3 1000)).2
          = false :=
  ⟨by decide, rfl, by decide,
    no_trip_when_sample_not_below (sample_config 4) 1200 (released_state 3 1000)
      (by decide) rfl (by decide) (by decide)⟩

/-- C17 fails for a rise of more than 32768: with `TRIP_THRESHOLD = 26`, rolling
average 100 and sample 40000 the 16-bit difference is 25636, which is positive
as a signed value and above the threshold, so the trip test passes and the
step trips. -/
theorem trip_on_rise_beyond_signed_range :
    (sample_config 4).TRIP_THRESHOLD < 32768
      ∧ (released_state 3 100).capsensor_status = Status.ST_RELEASED
      ∧ (40000 : Nat) < 65536
      ∧ (released_state 3 100).capsensor_rolling_avg ≤ 40000
      ∧ trip_test (sample_config 4) (released_state 3 100).capsensor_rolling_avg (u16 40000)
          = true
      ∧ (capsensor_is_button_pressed (sample_config 4) 40000 (released_state 3 100)).2 = true
      ∧ (capsensor_is_button_pressed (sample_config 4) 40000
          (released_state 3 100)).1.capsensor_status = Status.ST_TRIPPED := by
  decide

/-! ## No double trigger -/

/-- C18: for every configuration, every starting state and every sequence of
samples, two steps of the run that both return the event are at least
`READS_TO_TRIP + 2` steps apart; in particular they are never consecutive. -/
theorem no_double_trigger (cfg : Config) (s : Capsensor) (samples : List Nat) (i j : Nat)
    (hij : i < j)
    (hi : (events cfg s samples)[i]? = some true)
    (hj : (events cfg s samples)[j]? = some true) :
    i + cfg.READS_TO_TRIP + 2 ≤ j ∧ j ≠ i + 1 := by
  have h := events_gap cfg samples s i j hij hi hj
  exact ⟨h, by omega⟩

/-- C18 at a concrete run where the bound is attained: events on steps 4 and 9
with `READS_TO_TRIP = 3`. -/
theorem no_double_trigger_witness :
    events (sample_config 4) (power_on 1000)
        [700, 700, 700, 700, 1000, 700, 700, 700, 700, 700]
        = [false, false, false, true, false, false, false, false, true, false]
      ∧ 3 + (sample_config 4).READS_TO_TRIP + 2 ≤ 8 ∧ 8 ≠ 3 + 1 :=
  ⟨by decide,
    no_double_trigger (sample_config 4) (power_on 1000)
      [700, 700, 700, 700, 1000, 700, 700, 700, 700, 700] 3 8 (by decide) (by decide)
      (by decide)⟩

/-! ## Dead band of the baseline filter -/

/-- C19: on a step that refreshes the baseline, for a 16-bit sample with
`15 * rolling_avg + sample + 8` not above 65535, the rolling average is
unchanged exactly when `-8 ≤ sample - rolling_avg ≤ 7`; a sample more than 7
above moves it up, strictly and not beyond the sample; a sample more than 8
below moves it down, strictly and not beyond the sample; and a sample equal to
the rolling average leaves it unchanged. -/
theorem dead_band (cfg : Config) (x : Nat) (s : Capsensor)
    (hx : x < 65536)
    (hno : s.capsensor_rolling_avg * 15 + x + 8 < 65536)
    (href : (capsensor_is_button_pressed cfg x s).1.capsensor_status = Status.ST_TRIPPED
      ∨ u8 (s.avgs + 1) % cfg.AVERAGING_RATE = 0) :
    ((capsensor_is_button_pressed cfg x s).1.capsensor_rolling_avg = s.capsensor_rolling_avg
        ↔ (-8 ≤ (x : Int) - (s.capsensor_rolling_avg : Int)
          ∧ (x : Int) - (s.capsensor_rolling_avg : Int) ≤ 7))
      ∧ (s.capsensor_rolling_avg + 7 < x →
          s.capsensor_rolling_avg < (capsensor_is_button_pressed cfg x s).1.capsensor_rolling_avg
            ∧ (capsensor_is_button_pressed cfg x s).1.capsensor_rolling_avg ≤ x)
      ∧ (x + 8 < s.capsensor_rolling_avg →
          x ≤ (capsensor_is_button_pressed cfg x s).1.capsensor_rolling_avg
            ∧ (capsensor_is_button_pressed cfg x s).1.capsensor_rolling_avg
                < s.capsensor_rolling_avg)
      ∧ (x = s.capsensor_rolling_avg →
          (capsensor_is_button_pressed cfg x s).1.capsensor_rolling_avg
            = s.capsensor_rolling_avg) := by
  rw [step_rolling]
  simp only [href, if_true, rolling_update, u16, Nat.mod_eq_of_lt hx, Nat.mod_eq_of_lt hno]
  omega

/-- C19 at the baseline 1000: the samples 1007 and 1000 leave it unchanged, the
sample 1008 raises it and the sample 700 lowers it. -/
theorem dead_band_witness :
    ((capsensor_is_button_pressed (sample_config 1) 1007
          (power_on 1000)).1.capsensor_rolling_avg = 1000)
      ∧ (1000 < (capsensor_is_button_pressed (sample_config 1) 1008
            (power_on 1000)).1.capsensor_rolling_avg
          ∧ (capsensor_is_button_pressed (sample_config 1) 1008
            (power_on 1000)).1.capsensor_rolling_avg ≤ 1008)
      ∧ (700 ≤ (capsensor_is_button_pressed (sample_config 1) 700
            (power_on 1000)).1.capsensor_rolling_avg
          ∧ (capsensor_is_button_pressed (sample_config 1) 700
            (power_on 1000)).1.capsensor_rolling_avg < 1000)
      ∧ (capsensor_is_button_pressed (sample_config 1) 1000
          (power_on 1000)).1.capsensor_rolling_avg = 1000 :=
  ⟨(dead_band (sample_config 1) 1007 (power_on 1000) (by decide) (by decide)
      (Or.inr (by decide))).1.mpr (by decide),
    (dead_band (sample_config 1) 1008 (power_on 1000) (by decide) (by decide)
      (Or.inr (by decide))).2.1 (by decide),
    (dead_band (sample_config 1) 700 (power_on 1000) (by decide) (by decide)
      (Or.inr (by decide))).2.2.1 (by decide),
    (dead_band (sample_config 1) 1000 (power_on 1000) (by decide) (by decide)
      (Or.inr (by decide))).2.2.2 rfl⟩

end Livolo
